import Mathlib

/-!
Shallow embedding of the Mochi v2 vault program
(src/anchor-program/programs/mochi_v2_vault/src/lib.rs) and proofs about
its pack-session state machine, sellback/expire settlement, marketplace
fill, and vault migration.

Modelling conventions:
* `Pubkey` is an abstract identifier, modelled as `Nat` (0 plays the role
  of `Pubkey::default()`).
* u64 quantities are `Nat`; the source's `checked_mul`/`checked_sub` are
  modelled by `checkedMul64`/`checkedSub64`, which fail exactly when the
  result leaves the u64 range.  i64 timestamps are `Int`.
* Each instruction handler becomes a pure function returning
  `Except MochiError result`.  The ledger applies a call's writes only
  when the call succeeds (per-call atomicity of the runtime); the
  `...Persisted` wrappers make that explicit: on `.error` every account
  keeps its prior contents.
* Accounts that the handler loads from `remaining_accounts` via
  `Account::try_from` are passed as explicit typed lists.  Crucially,
  such ad-hoc accounts are written back to the ledger only when the
  handler serializes them itself (`persist_card_record` /
  `try_serialize`); Anchor auto-persists only the accounts named in the
  `#[derive(Accounts)]` struct.  The embedding mirrors exactly which
  records the source serializes.
-/

/-- Abstract account address / identity, `Pubkey` in the source. `0` stands
for `Pubkey::default()`. -/
abbrev Pubkey := Nat

/-- Fixed full-pack size, `PACK_CARD_COUNT = 11` (lib.rs:12). -/
def PACK_CARD_COUNT : Nat := 11

/-- Cap on lightweight reservations, `MAX_RARE_CARDS = 3` (lib.rs:13). -/
def MAX_RARE_CARDS : Nat := 3

/-- Size of the u64 range, used by the checked-arithmetic models. -/
def U64_MOD : Nat := 2 ^ 64

/-- Card rarity enum (lib.rs:2296-2307). -/
inductive Rarity where
  | Common
  | Uncommon
  | Rare
  | DoubleRare
  | UltraRare
  | IllustrationRare
  | SpecialIllustrationRare
  | MegaHyperRare
  | Energy
  deriving DecidableEq, Repr

/-- Card custody/status enum (lib.rs:2309-2317). -/
inductive CardStatus where
  | Available
  | Reserved
  | UserOwned
  | RedeemPending
  | Burned
  | Deprecated
  deriving DecidableEq, Repr

/-- Payment currency enum (lib.rs:2319-2323). -/
inductive Currency where
  | Sol
  | Token
  deriving DecidableEq, Repr

/-- Pack session lifecycle state (lib.rs:2325-2332). -/
inductive PackState where
  | Uninitialized
  | PendingDecision
  | Accepted
  | Rejected
  | Expired
  deriving DecidableEq, Repr

/-- Marketplace listing status (lib.rs:2334-2341). -/
inductive ListingStatus where
  | Active
  | Filled
  | Cancelled
  | Burned
  | Deprecated
  deriving DecidableEq, Repr

/-- Program error codes (lib.rs:2343-2389). -/
inductive MochiError where
  | Unauthorized
  | InvalidPrice
  | InsufficientFunds
  | InvalidCardCount
  | CardNotAvailable
  | VaultMismatch
  | InvalidListingState
  | SessionExists
  | InvalidSessionState
  | SessionExpired
  | SessionNotExpired
  | CardNotReserved
  | AssetMismatch
  | MathOverflow
  | MissingTokenAccount
  | MintMismatch
  | CoreCpiError
  | TooManyRareCards
  | CardTooCommon
  | TemplateMismatch
  | CardKeyMismatch
  | RarityMismatch
  deriving DecidableEq, Repr

/-- `VaultState` account (lib.rs:2185-2200).  The on-chain padding bytes are
not represented. -/
structure VaultState where
  admin : Pubkey
  vault_authority : Pubkey
  pack_price_sol : Nat
  pack_price_usdc : Nat
  buyback_bps : Nat
  claim_window_seconds : Int
  marketplace_fee_bps : Nat
  core_collection : Option Pubkey
  usdc_mint : Option Pubkey
  mochi_mint : Option Pubkey
  reward_per_pack : Nat
  vault_authority_bump : Nat
  deriving DecidableEq, Repr

/-- `CardRecord` account (lib.rs:2225-2233). -/
structure CardRecord where
  vault_state : Pubkey
  core_asset : Pubkey
  template_id : Nat
  rarity : Rarity
  status : CardStatus
  owner : Pubkey
  deriving DecidableEq, Repr

/-- Lightweight pack session `PackSessionV2` (lib.rs:2238-2251).  The
32-byte `client_seed_hash` is abstracted to a `Nat`; the PDA `bump` byte is
not represented. -/
structure PackSessionV2 where
  user : Pubkey
  currency : Currency
  paid_amount : Nat
  created_at : Int
  expires_at : Int
  rare_card_keys : List Pubkey
  rare_templates : List Nat
  state : PackState
  client_seed_hash : Nat
  total_slots : Nat
  deriving DecidableEq, Repr

/-- Full pack session `PackSession` (lib.rs:2266-2277).  The 11-entry key
array becomes a list; `client_seed_hash` is abstracted to a `Nat`. -/
structure PackSession where
  user : Pubkey
  currency : Currency
  paid_amount : Nat
  created_at : Int
  expires_at : Int
  card_record_keys : List Pubkey
  state : PackState
  client_seed_hash : Nat
  rarity_prices : List Nat
  deriving DecidableEq, Repr

/-- Marketplace `Listing` account (lib.rs:2283-2291). -/
structure Listing where
  vault_state : Pubkey
  seller : Pubkey
  core_asset : Pubkey
  price_lamports : Nat
  currency_mint : Option Pubkey
  status : ListingStatus
  deriving DecidableEq, Repr

/-- The two fields of an SPL token account that the handlers inspect. -/
structure TokenAcc where
  mint : Pubkey
  owner : Pubkey
  deriving DecidableEq, Repr

/-- Model of `u64::checked_mul`: the product, or `none` past 64 bits. -/
def checkedMul64 (a b : Nat) : Option Nat :=
  if a * b < U64_MOD then some (a * b) else none

/-- Model of `u64::checked_sub`: the difference, or `none` on underflow. -/
def checkedSub64 (a b : Nat) : Option Nat :=
  if b ≤ a then some (a - b) else none

/-- `is_rare_or_above` (lib.rs:2398-2408).  Note that `Energy` is not in the
accepted set. -/
def isRareOrAbove : Rarity → Bool
  | Rarity.Rare => true
  | Rarity.DoubleRare => true
  | Rarity.UltraRare => true
  | Rarity.IllustrationRare => true
  | Rarity.SpecialIllustrationRare => true
  | Rarity.MegaHyperRare => true
  | _ => false

/-- Validation predicate applied per card by the lightweight open loop
(`open_pack`, lib.rs:294-310): the record must belong to this vault, be
`Available`, be rare or above, and match the caller-declared template. -/
def validRareCard (vaultKey : Pubkey) (c : CardRecord) (t : Nat) : Prop :=
  c.vault_state = vaultKey ∧ c.status = CardStatus.Available ∧
    isRareOrAbove c.rarity = true ∧ c.template_id = t

instance (vaultKey : Pubkey) (c : CardRecord) (t : Nat) :
    Decidable (validRareCard vaultKey c t) := by
  unfold validRareCard
  infer_instance

/-- Reservation loop of the lightweight open (`open_pack`, lib.rs:290-315):
each supplied record is validated against the declared template at the same
index, then flipped to `Reserved` with the user as owner and written back via
`persist_card_record`.  The first failing record aborts the loop. -/
def reserveRareCards (vaultKey user : Pubkey) :
    List (Pubkey × CardRecord) → List Nat →
      Except MochiError (List (Pubkey × CardRecord))
  | [], [] => Except.ok []
  | (k, c) :: cs, t :: ts =>
    if c.vault_state ≠ vaultKey then Except.error MochiError.VaultMismatch
    else if c.status ≠ CardStatus.Available then
      Except.error MochiError.CardNotAvailable
    else if ¬ isRareOrAbove c.rarity = true then
      Except.error MochiError.CardTooCommon
    else if c.template_id ≠ t then Except.error MochiError.TemplateMismatch
    else
      match reserveRareCards vaultKey user cs ts with
      | Except.error e => Except.error e
      | Except.ok rest =>
        Except.ok ((k, { c with status := CardStatus.Reserved, owner := user }) :: rest)
  | _, _ => Except.error MochiError.InvalidCardCount

/-- Payment step of the lightweight open (`open_pack`, lib.rs:245-288).
SOL: requires a configured nonzero price and transfers it to the treasury.
Token: requires a nonzero token price, both token accounts among the
remaining accounts, and, when a USDC mint is configured, matching mints. -/
def openPackV2Payment (vault : VaultState) (currency : Currency)
    (userTok vaultTok : Option TokenAcc) : Except MochiError Nat :=
  match currency with
  | Currency.Sol =>
    if vault.pack_price_sol = 0 then Except.error MochiError.InvalidPrice
    else Except.ok vault.pack_price_sol
  | Currency.Token =>
    if vault.pack_price_usdc = 0 then Except.error MochiError.InvalidPrice
    else
      match userTok, vaultTok with
      | some ut, some vt =>
        match vault.usdc_mint with
        | some m =>
          if ut.mint ≠ m then Except.error MochiError.MintMismatch
          else if vt.mint ≠ m then Except.error MochiError.MintMismatch
          else Except.ok vault.pack_price_usdc
        | none => Except.ok vault.pack_price_usdc
      | _, _ => Except.error MochiError.MissingTokenAccount

/-- Optional MOCHI reward mint of `open_pack` (lib.rs:329-385): when
`reward_per_pack > 0` the configured mint must be supplied, its mint
authority must be the vault authority, and the destination token account
must be the user's account for that mint.  Returns the minted amount. -/
def mintReward (vault : VaultState) (user vaultAuthorityKey : Pubkey)
    (suppliedMintKey : Pubkey) (suppliedMintAuthority : Option Pubkey)
    (userMochiToken : TokenAcc) : Except MochiError Nat :=
  if vault.reward_per_pack = 0 then Except.ok 0
  else
    match vault.mochi_mint with
    | none => Except.error MochiError.MintMismatch
    | some m =>
      if suppliedMintKey ≠ m then Except.error MochiError.MintMismatch
      else if suppliedMintAuthority ≠ some vaultAuthorityKey then
        Except.error MochiError.Unauthorized
      else if userMochiToken.mint ≠ m then Except.error MochiError.MintMismatch
      else if userMochiToken.owner ≠ user then
        Except.error MochiError.Unauthorized
      else Except.ok vault.reward_per_pack

/-- Inputs of the lightweight open (`open_pack`, lib.rs:218-387).
`rareCards` is the prefix of `remaining_accounts` holding the rare card
records (key and deserialized contents); the optional token accounts are the
two entries that follow them in the `Currency::Token` case. -/
structure OpenPackV2Input where
  vaultKey : Pubkey
  vault : VaultState
  vaultAuthorityKey : Pubkey
  user : Pubkey
  now : Int
  session : PackSessionV2
  currency : Currency
  clientSeedHash : Nat
  rareTemplates : List Nat
  rareCards : List (Pubkey × CardRecord)
  userTokenAcc : Option TokenAcc
  vaultTokenAcc : Option TokenAcc
  suppliedMochiMintKey : Pubkey
  suppliedMochiMintAuthority : Option Pubkey
  userMochiToken : TokenAcc
  deriving DecidableEq, Repr

/-- Successful outcome of the lightweight open: the new session, the
reserved card records as written back, the price retained by the treasury,
and the reward amount minted. -/
structure OpenPackV2Result where
  session : PackSessionV2
  cards : List (Pubkey × CardRecord)
  paidAmount : Nat
  rewardMinted : Nat
  deriving DecidableEq, Repr

/-- Lightweight open `open_pack` (lib.rs:218-387), in source order:
rare-count cap, remaining-accounts count, active-session guard
(`SessionExists` when the session is `PendingDecision` and unexpired,
lib.rs:239-243), payment, per-card validation and reservation, session
write, optional reward mint. -/
def openPackV2 (inp : OpenPackV2Input) : Except MochiError OpenPackV2Result :=
  if MAX_RARE_CARDS < inp.rareTemplates.length then
    Except.error MochiError.TooManyRareCards
  else if inp.rareCards.length < inp.rareTemplates.length then
    Except.error MochiError.InvalidCardCount
  else if inp.session.state = PackState.PendingDecision ∧
      inp.now ≤ inp.session.expires_at then
    Except.error MochiError.SessionExists
  else
    match openPackV2Payment inp.vault inp.currency inp.userTokenAcc inp.vaultTokenAcc with
    | Except.error e => Except.error e
    | Except.ok paid =>
      match reserveRareCards inp.vaultKey inp.user
          (inp.rareCards.take inp.rareTemplates.length) inp.rareTemplates with
      | Except.error e => Except.error e
      | Except.ok reserved =>
        match mintReward inp.vault inp.user inp.vaultAuthorityKey
            inp.suppliedMochiMintKey inp.suppliedMochiMintAuthority
            inp.userMochiToken with
        | Except.error e => Except.error e
        | Except.ok minted =>
          Except.ok
            { session :=
                { user := inp.user
                  currency := inp.currency
                  paid_amount := paid
                  created_at := inp.now
                  expires_at := inp.now + inp.vault.claim_window_seconds
                  rare_card_keys := reserved.map Prod.fst
                  rare_templates := inp.rareTemplates
                  state := PackState.PendingDecision
                  client_seed_hash := inp.clientSeedHash
                  total_slots := PACK_CARD_COUNT }
              cards := reserved
              paidAmount := paid
              rewardMinted := minted }

/-- Account state the ledger keeps after an open call: the session record,
the supplied card records, and the payment retained by the treasury. -/
structure OpenV2Persisted where
  session : PackSessionV2
  cards : List (Pubkey × CardRecord)
  treasuryReceived : Nat
  deriving DecidableEq, Repr

/-- Per-call atomicity for the lightweight open: on success the written
session and card records (plus the untouched tail of the supplied list)
persist; on failure the runtime rolls the whole call back, so every account
keeps its prior contents and no payment is retained. -/
def openPackV2Persisted (inp : OpenPackV2Input) : OpenV2Persisted :=
  match openPackV2 inp with
  | Except.ok r =>
    { session := r.session
      cards := r.cards ++ inp.rareCards.drop inp.rareTemplates.length
      treasuryReceived := r.paidAmount }
  | Except.error _ =>
    { session := inp.session, cards := inp.rareCards, treasuryReceived := 0 }

/-- Validation predicate applied per card by the full open loop
(`open_pack_start`, lib.rs:712-722): correct vault and `Available`. -/
def validPackCard (vaultKey : Pubkey) (c : CardRecord) : Prop :=
  c.vault_state = vaultKey ∧ c.status = CardStatus.Available

instance (vaultKey : Pubkey) (c : CardRecord) :
    Decidable (validPackCard vaultKey c) := by
  unfold validPackCard
  infer_instance

/-- Reservation loop of the full open (`open_pack_start`, lib.rs:711-730):
validates vault membership and availability, then flips each record to
`Reserved` with the user as owner and serializes it back. -/
def reservePackCards (vaultKey user : Pubkey) :
    List (Pubkey × CardRecord) → Except MochiError (List (Pubkey × CardRecord))
  | [] => Except.ok []
  | (k, c) :: rest =>
    if c.vault_state ≠ vaultKey then Except.error MochiError.VaultMismatch
    else if c.status ≠ CardStatus.Available then
      Except.error MochiError.CardNotAvailable
    else
      match reservePackCards vaultKey user rest with
      | Except.error e => Except.error e
      | Except.ok t =>
        Except.ok ((k, { c with status := CardStatus.Reserved, owner := user }) :: t)

/-- Inputs of the full open (`open_pack_start`, lib.rs:618-733).
`remainingCards` is the remaining-accounts list; the first
`PACK_CARD_COUNT` entries are the card records
(`partition_pack_accounts`, lib.rs:2428-2446). -/
structure OpenPackStartInput where
  vaultKey : Pubkey
  vault : VaultState
  user : Pubkey
  userLamports : Nat
  now : Int
  session : PackSession
  currency : Currency
  clientSeedHash : Nat
  rarityPrices : List Nat
  remainingCards : List (Pubkey × CardRecord)
  userTokenAcc : Option TokenAcc
  vaultTokenAcc : Option TokenAcc
  deriving DecidableEq, Repr

/-- Successful outcome of the full open. -/
structure OpenPackStartResult where
  session : PackSession
  cards : List (Pubkey × CardRecord)
  paidAmount : Nat
  deriving DecidableEq, Repr

/-- Payment step of the full open (`open_pack_start`, lib.rs:641-684).
SOL additionally requires the user to hold at least the price in lamports
(`InsufficientFunds`, lib.rs:646-649). -/
def openPackStartPayment (vault : VaultState) (currency : Currency)
    (userLamports : Nat) (userTok vaultTok : Option TokenAcc) :
    Except MochiError Nat :=
  match currency with
  | Currency.Sol =>
    if vault.pack_price_sol = 0 then Except.error MochiError.InvalidPrice
    else if userLamports < vault.pack_price_sol then
      Except.error MochiError.InsufficientFunds
    else Except.ok vault.pack_price_sol
  | Currency.Token =>
    if vault.pack_price_usdc = 0 then Except.error MochiError.InvalidPrice
    else
      match userTok, vaultTok with
      | some ut, some vt =>
        match vault.usdc_mint with
        | some m =>
          if ut.mint ≠ m then Except.error MochiError.MintMismatch
          else if vt.mint ≠ m then Except.error MochiError.MintMismatch
          else Except.ok vault.pack_price_usdc
        | none => Except.ok vault.pack_price_usdc
      | _, _ => Except.error MochiError.MissingTokenAccount

/-- Full open `open_pack_start` (lib.rs:618-733), in source order: account
partition (at least `PACK_CARD_COUNT` remaining accounts), token-account
presence for `Currency::Token` (lib.rs:635-639), payment, session-state
guard (`SessionExists` unless the session is `Uninitialized`, `Accepted`,
`Rejected` or `Expired`, lib.rs:688-698 — the expiry time is not consulted),
session write, and the validate-and-reserve loop, each record serialized
back explicitly (lib.rs:726-729). -/
def openPackStart (inp : OpenPackStartInput) :
    Except MochiError OpenPackStartResult :=
  if inp.remainingCards.length < PACK_CARD_COUNT then
    Except.error MochiError.InvalidCardCount
  else if inp.currency = Currency.Token ∧
      (inp.userTokenAcc.isNone ∨ inp.vaultTokenAcc.isNone) then
    Except.error MochiError.MissingTokenAccount
  else
    match openPackStartPayment inp.vault inp.currency inp.userLamports
        inp.userTokenAcc inp.vaultTokenAcc with
    | Except.error e => Except.error e
    | Except.ok paid =>
      if inp.session.state = PackState.PendingDecision then
        Except.error MochiError.SessionExists
      else
        match reservePackCards inp.vaultKey inp.user
            (inp.remainingCards.take PACK_CARD_COUNT) with
        | Except.error e => Except.error e
        | Except.ok reserved =>
          Except.ok
            { session :=
                { user := inp.user
                  currency := inp.currency
                  paid_amount := paid
                  created_at := inp.now
                  expires_at := inp.now + inp.vault.claim_window_seconds
                  card_record_keys := reserved.map Prod.fst
                  state := PackState.PendingDecision
                  client_seed_hash := inp.clientSeedHash
                  rarity_prices := inp.rarityPrices }
              cards := reserved
              paidAmount := paid }

/-- Account state the ledger keeps after a full open call. -/
structure OpenV1Persisted where
  session : PackSession
  cards : List (Pubkey × CardRecord)
  treasuryReceived : Nat
  deriving DecidableEq, Repr

/-- Per-call atomicity for the full open: a failed call leaves every
account untouched and retains no payment. -/
def openPackStartPersisted (inp : OpenPackStartInput) : OpenV1Persisted :=
  match openPackStart inp with
  | Except.ok r =>
    { session := r.session
      cards := r.cards ++ inp.remainingCards.drop PACK_CARD_COUNT
      treasuryReceived := r.paidAmount }
  | Except.error _ =>
    { session := inp.session, cards := inp.remainingCards
      treasuryReceived := 0 }

/-- Token-account checks shared by the token-payout paths of both sellback
variants (lib.rs:496-503 and lib.rs:971-978): both token accounts must be
present among the extra remaining accounts, and when a USDC mint is
configured both must carry it. -/
def checkPayoutTokenAccounts (usdcMint : Option Pubkey)
    (userTok vaultTok : Option TokenAcc) : Except MochiError Unit :=
  match userTok, vaultTok with
  | some ut, some vt =>
    match usdcMint with
    | some m =>
      if ut.mint ≠ m then Except.error MochiError.MintMismatch
      else if vt.mint ≠ m then Except.error MochiError.MintMismatch
      else Except.ok ()
    | none => Except.ok ()
  | _, _ => Except.error MochiError.MissingTokenAccount

/-- Release loop of `sellback_pack_v2` (lib.rs:525-544): each supplied card
account must sit at the key recorded in the session, be `Reserved` and be
owned by the caller; it is then written back `Available` with the vault
authority as owner via `persist_card_record`. -/
def releaseReservedCards (user vaultAuthorityKey : Pubkey) :
    List (Pubkey × CardRecord) → List Pubkey →
      Except MochiError (List (Pubkey × CardRecord))
  | [], [] => Except.ok []
  | (k, c) :: cs, key :: ks =>
    if k ≠ key then Except.error MochiError.CardKeyMismatch
    else if c.status ≠ CardStatus.Reserved then
      Except.error MochiError.CardNotReserved
    else if c.owner ≠ user then Except.error MochiError.Unauthorized
    else
      match releaseReservedCards user vaultAuthorityKey cs ks with
      | Except.error e => Except.error e
      | Except.ok t =>
        Except.ok
          ((k, { c with status := CardStatus.Available
                        owner := vaultAuthorityKey }) :: t)
  | _, _ => Except.error MochiError.CardKeyMismatch

/-- Release loop of `expire_session_v2` (lib.rs:564-578): like the sellback
release but without the owner check. -/
def releaseExpiredCards (vaultAuthorityKey : Pubkey) :
    List (Pubkey × CardRecord) → List Pubkey →
      Except MochiError (List (Pubkey × CardRecord))
  | [], [] => Except.ok []
  | (k, c) :: cs, key :: ks =>
    if k ≠ key then Except.error MochiError.CardKeyMismatch
    else if c.status ≠ CardStatus.Reserved then
      Except.error MochiError.CardNotReserved
    else
      match releaseExpiredCards vaultAuthorityKey cs ks with
      | Except.error e => Except.error e
      | Except.ok t =>
        Except.ok
          ((k, { c with status := CardStatus.Available
                        owner := vaultAuthorityKey }) :: t)
  | _, _ => Except.error MochiError.CardKeyMismatch

/-- Inputs shared by the lightweight resolve handlers (`ResolvePackV2`,
lib.rs:1702-1720).  `cardAccounts` is the card-record slice of
`remaining_accounts` (`split_rare_accounts`, lib.rs:2410-2426); the
optional token accounts are the extras used by the token payout path. -/
structure ResolveV2Input where
  vaultKey : Pubkey
  vault : VaultState
  vaultAuthorityKey : Pubkey
  user : Pubkey
  now : Int
  session : PackSessionV2
  cardAccounts : List (Pubkey × CardRecord)
  userTokenAcc : Option TokenAcc
  vaultTokenAcc : Option TokenAcc
  deriving DecidableEq, Repr

/-- Successful outcome of `sellback_pack_v2`. -/
structure SellbackV2Result where
  session : PackSessionV2
  cards : List (Pubkey × CardRecord)
  payout : Nat
  payoutCurrency : Currency
  deriving DecidableEq, Repr

/-- Lightweight sellback `sellback_pack_v2` (lib.rs:450-548).  Requires a
`PendingDecision`, unexpired session; the payout is
`paid_amount * buyback_bps / 10000` with a checked multiply
(lib.rs:462-466), paid in the session's currency (SOL from the vault
authority, or tokens from the vault token account); every reserved record
is then released and written back, and the session becomes `Rejected`. -/
def sellbackPackV2 (inp : ResolveV2Input) :
    Except MochiError SellbackV2Result :=
  if inp.session.state ≠ PackState.PendingDecision then
    Except.error MochiError.InvalidSessionState
  else if inp.session.expires_at < inp.now then
    Except.error MochiError.SessionExpired
  else
    match checkedMul64 inp.session.paid_amount inp.vault.buyback_bps with
    | none => Except.error MochiError.MathOverflow
    | some product =>
      if inp.cardAccounts.length < inp.session.rare_card_keys.length then
        Except.error MochiError.InvalidCardCount
      else
        match
          (match inp.session.currency with
           | Currency.Sol => Except.ok ()
           | Currency.Token =>
             checkPayoutTokenAccounts inp.vault.usdc_mint inp.userTokenAcc
               inp.vaultTokenAcc) with
        | Except.error e => Except.error e
        | Except.ok _ =>
          match releaseReservedCards inp.user inp.vaultAuthorityKey
              (inp.cardAccounts.take inp.session.rare_card_keys.length)
              inp.session.rare_card_keys with
          | Except.error e => Except.error e
          | Except.ok released =>
            Except.ok
              { session := { inp.session with state := PackState.Rejected }
                cards := released
                payout := product / 10000
                payoutCurrency := inp.session.currency }

/-- Successful outcome of the expire handlers.  `payout` is always 0: the
expire paths transfer nothing (lib.rs:550-582 and lib.rs:1011-1032). -/
structure ExpireResult (σ : Type) where
  session : σ
  cards : List (Pubkey × CardRecord)
  payout : Nat
  deriving DecidableEq, Repr

/-- Lightweight expire `expire_session_v2` (lib.rs:551-582).  Requires a
`PendingDecision` session with `now` strictly past `expires_at`
(`SessionNotExpired` otherwise); releases each reserved record back to
`Available` under the vault authority, writes them back, pays nothing, and
marks the session `Expired`. -/
def expireSessionV2 (inp : ResolveV2Input) :
    Except MochiError (ExpireResult PackSessionV2) :=
  if inp.session.state ≠ PackState.PendingDecision then
    Except.error MochiError.InvalidSessionState
  else if ¬ inp.session.expires_at < inp.now then
    Except.error MochiError.SessionNotExpired
  else
    if inp.cardAccounts.length < inp.session.rare_card_keys.length then
      Except.error MochiError.InvalidCardCount
    else
      match releaseExpiredCards inp.vaultAuthorityKey
          (inp.cardAccounts.take inp.session.rare_card_keys.length)
          inp.session.rare_card_keys with
      | Except.error e => Except.error e
      | Except.ok released =>
        Except.ok
          { session := { inp.session with state := PackState.Expired }
            cards := released
            payout := 0 }

/-- Account resolution of the `ResolvePackV2` context (lib.rs:1702-1720):
`user` is a `Signer` and `pack_session` is the PDA with seeds
`[b"pack_session_v2", vault_state, user.key()]`, so a caller always
operates on the session derived from their own key.  `sessions` maps each
user key to the session account stored at that derivation. -/
def expireSessionV2ByCaller (sessions : Pubkey → PackSessionV2)
    (vaultKey : Pubkey) (vault : VaultState) (vaultAuthorityKey : Pubkey)
    (caller : Pubkey) (now : Int) (cards : List (Pubkey × CardRecord)) :
    Except MochiError (ExpireResult PackSessionV2) :=
  expireSessionV2
    { vaultKey := vaultKey
      vault := vault
      vaultAuthorityKey := vaultAuthorityKey
      user := caller
      now := now
      session := sessions caller
      cardAccounts := cards
      userTokenAcc := none
      vaultTokenAcc := none }

/-- Inputs shared by the full-pack resolve handlers (`ResolvePack`,
lib.rs:1830-1848).  `cardAccounts` is the 11-entry card-record slice of
`remaining_accounts`; `assetCount` is the length of the asset slice that
follows it (`partition_pack_accounts`, lib.rs:2428-2446). -/
structure ResolveV1Input where
  vaultKey : Pubkey
  vault : VaultState
  vaultAuthorityKey : Pubkey
  user : Pubkey
  now : Int
  session : PackSession
  cardAccounts : List (Pubkey × CardRecord)
  assetCount : Nat
  userTokenAcc : Option TokenAcc
  vaultTokenAcc : Option TokenAcc
  deriving DecidableEq, Repr

/-- Successful outcome of `sellback_pack`. -/
structure SellbackV1Result where
  session : PackSession
  cards : List (Pubkey × CardRecord)
  payout : Nat
  payoutCurrency : Currency
  deriving DecidableEq, Repr

/-- Full-pack sellback `sellback_pack` (lib.rs:931-1009).  Requires a
`PendingDecision`, unexpired session.  The payout is
`(sum of rarity_prices) * buyback_bps / 10000` with a checked multiply
(lib.rs:943-947; the u64 sum itself wraps, hence the mod), paid from the
treasury in the session's currency.  The card loop (lib.rs:1000-1005) sets
each deserialized copy to `Available` under the vault authority but — unlike
`claim_pack` (lib.rs:792-794) and the v2 handlers (`persist_card_record`) —
never serializes the modified record back, so the stored records are
unchanged: the result's `cards` equal the input's.  The session becomes
`Rejected`. -/
def sellbackPack (inp : ResolveV1Input) : Except MochiError SellbackV1Result :=
  if inp.session.state ≠ PackState.PendingDecision then
    Except.error MochiError.InvalidSessionState
  else if inp.session.expires_at < inp.now then
    Except.error MochiError.SessionExpired
  else
    match checkedMul64 (inp.session.rarity_prices.sum % U64_MOD)
        inp.vault.buyback_bps with
    | none => Except.error MochiError.MathOverflow
    | some product =>
      if inp.cardAccounts.length ≠ PACK_CARD_COUNT then
        Except.error MochiError.InvalidCardCount
      else if inp.assetCount ≠ PACK_CARD_COUNT then
        Except.error MochiError.InvalidCardCount
      else
        match
          (match inp.session.currency with
           | Currency.Sol => Except.ok ()
           | Currency.Token =>
             checkPayoutTokenAccounts inp.vault.usdc_mint inp.userTokenAcc
               inp.vaultTokenAcc) with
        | Except.error e => Except.error e
        | Except.ok _ =>
          Except.ok
            { session := { inp.session with state := PackState.Rejected }
              cards := inp.cardAccounts
              payout := product / 10000
              payoutCurrency := inp.session.currency }

/-- Full-pack expire `expire_session` (lib.rs:1011-1032).  Requires a
`PendingDecision` session with `now` strictly past `expires_at`.  Like
`sellback_pack`, the card loop (lib.rs:1024-1028) mutates only the
deserialized copies and never writes them back, so the stored records are
unchanged.  No payout; the session becomes `Expired`. -/
def expireSession (inp : ResolveV1Input) :
    Except MochiError (ExpireResult PackSession) :=
  if inp.session.state ≠ PackState.PendingDecision then
    Except.error MochiError.InvalidSessionState
  else if ¬ inp.session.expires_at < inp.now then
    Except.error MochiError.SessionNotExpired
  else if inp.cardAccounts.length < PACK_CARD_COUNT then
    Except.error MochiError.InvalidCardCount
  else
    Except.ok
      { session := { inp.session with state := PackState.Expired }
        cards := inp.cardAccounts
        payout := 0 }

/-- Account resolution of the `ResolvePack` context (lib.rs:1830-1848):
`user` is a `Signer` and `pack_session` is the PDA with seeds
`[b"pack_session", vault_state, user.key()]`, so a caller always operates
on the full-pack session derived from their own key.  `sessions` maps each
user key to the session account stored at that derivation. -/
def expireSessionByCaller (sessions : Pubkey → PackSession)
    (vaultKey : Pubkey) (vault : VaultState) (vaultAuthorityKey : Pubkey)
    (caller : Pubkey) (now : Int) (cards : List (Pubkey × CardRecord))
    (assetCount : Nat) : Except MochiError (ExpireResult PackSession) :=
  expireSession
    { vaultKey := vaultKey
      vault := vault
      vaultAuthorityKey := vaultAuthorityKey
      user := caller
      now := now
      session := sessions caller
      cardAccounts := cards
      assetCount := assetCount
      userTokenAcc := none
      vaultTokenAcc := none }

/-- Verification loop of `finalize_claim` (lib.rs:915-926): every record the
caller supplies must be `UserOwned` and owned by the caller. -/
def checkAllUserOwned (user : Pubkey) : List CardRecord → Except MochiError Unit
  | [] => Except.ok ()
  | c :: cs =>
    if c.status ≠ CardStatus.UserOwned then
      Except.error MochiError.CardNotReserved
    else if c.owner ≠ user then Except.error MochiError.Unauthorized
    else checkAllUserOwned user cs

/-- Finalize `finalize_claim` (lib.rs:905-929).  Requires a
`PendingDecision`, unexpired session, then iterates over exactly the
caller-supplied remaining accounts — the handler never compares them with
the session's `card_record_keys`, nor requires any minimum count — and
marks the session `Accepted` when every supplied record passes. -/
def finalizeClaim (user : Pubkey) (now : Int) (session : PackSession)
    (supplied : List CardRecord) : Except MochiError PackSession :=
  if session.state ≠ PackState.PendingDecision then
    Except.error MochiError.InvalidSessionState
  else if session.expires_at < now then Except.error MochiError.SessionExpired
  else
    match checkAllUserOwned user supplied with
    | Except.error e => Except.error e
    | Except.ok _ => Except.ok { session with state := PackState.Accepted }

/-- Session state the ledger keeps after a finalize call: on failure the
runtime rolls the call back and the session keeps its prior contents. -/
def finalizeClaimPersisted (user : Pubkey) (now : Int) (session : PackSession)
    (supplied : List CardRecord) : PackSession :=
  match finalizeClaim user now session supplied with
  | Except.ok s => s
  | Except.error _ => session

/-- Inputs of `fill_listing` (`FillListing` context, lib.rs:2006-2030).
Note that `card_record` is an ordinary mutable `Account<CardRecord>` with no
seeds constraint and no `has_one`, so any card record account of the program
may be supplied, independent of the listing. -/
structure FillListingInput where
  buyer : Pubkey
  seller : Pubkey
  vault : VaultState
  record : CardRecord
  listing : Listing
  vaultAuthorityKey : Pubkey
  deriving DecidableEq, Repr

/-- Successful outcome of `fill_listing`: the two transfers performed in the
call (buyer to treasury and buyer to the supplied seller account) and the
persisted record and listing.  When the fee is 0 the treasury transfer
instruction is skipped (lib.rs:1262), which moves the same amount, 0. -/
structure FillListingResult where
  feeToTreasury : Nat
  amountToSeller : Nat
  record : CardRecord
  listing : Listing
  deriving DecidableEq, Repr

/-- Marketplace fill `fill_listing` (lib.rs:1247-1308).  Requires an
`Active` listing; computes `fee = price * marketplace_fee_bps / 10000` with
checked arithmetic and `seller_amount = price - fee` (checked), transfers
both from the buyer in the same call, re-checks the record's `core_asset`
against `core_key` — which was itself read from the same record
(lib.rs:1252 and lib.rs:1290), so the comparison is reflexive — then sets
the record `UserOwned` under the buyer and the listing `Filled`.  Both the
record and the listing sit in the account struct, so Anchor persists them
on exit. -/
def fillListing (inp : FillListingInput) : Except MochiError FillListingResult :=
  if inp.listing.status ≠ ListingStatus.Active then
    Except.error MochiError.InvalidListingState
  else
    match checkedMul64 inp.listing.price_lamports inp.vault.marketplace_fee_bps with
    | none => Except.error MochiError.MathOverflow
    | some product =>
      match checkedSub64 inp.listing.price_lamports (product / 10000) with
      | none => Except.error MochiError.MathOverflow
      | some sellerAmount =>
        if inp.record.core_asset ≠ inp.record.core_asset then
          Except.error MochiError.AssetMismatch
        else
          Except.ok
            { feeToTreasury := product / 10000
              amountToSeller := sellerAmount
              record := { inp.record with status := CardStatus.UserOwned
                                          owner := inp.buyer }
              listing := { inp.listing with status := ListingStatus.Filled } }

/-- Inputs of `list_card` (lib.rs:1116-1189 and the `ListCard` context,
lib.rs:1951-1981).  `record` is the card-record PDA's current contents; a
freshly created (`init_if_needed`) account is all zeroes, which the handler
detects through `vault_state == Pubkey::default()`. -/
structure ListCardInput where
  sellerKey : Pubkey
  vaultKey : Pubkey
  vaultAuthorityKey : Pubkey
  coreAssetKey : Pubkey
  record : CardRecord
  priceLamports : Nat
  currencyMint : Option Pubkey
  templateId : Nat
  rarity : Rarity
  deriving DecidableEq, Repr

/-- Init-or-load step of `list_card` (lib.rs:1137-1145): a freshly created
(`init_if_needed`) record is all zeroes, detected via
`vault_state == Pubkey::default()`, and is populated from the call's
arguments as `UserOwned` by the seller; an existing record is used as
stored. -/
def listCardLoadRecord (inp : ListCardInput) : CardRecord :=
  if inp.record.vault_state = 0 then
    { vault_state := inp.vaultKey
      core_asset := inp.coreAssetKey
      template_id := inp.templateId
      rarity := inp.rarity
      status := CardStatus.UserOwned
      owner := inp.sellerKey }
  else inp.record

/-- Marketplace listing `list_card` (lib.rs:1116-1189).  The canonical
marketplace-vault PDA check (lib.rs:1123-1130) restates the account
constraint and is modelled as given.  An existing record must match the
declared vault, asset, template and rarity (lib.rs:1146-1154).  The record
must be held by the seller or the vault authority and be `UserOwned` or
`Available` (lib.rs:1156-1164); the asset is moved into custody when the
seller still holds it (external custody adapter), and the record ends
`Reserved` under the vault authority (lib.rs:1177-1178) with an `Active`
listing (lib.rs:1181-1188). -/
def listCard (inp : ListCardInput) : Except MochiError (CardRecord × Listing) :=
  if inp.record.vault_state ≠ 0 ∧
      (listCardLoadRecord inp).vault_state ≠ inp.vaultKey then
    Except.error MochiError.VaultMismatch
  else if inp.record.vault_state ≠ 0 ∧
      (listCardLoadRecord inp).core_asset ≠ inp.coreAssetKey then
    Except.error MochiError.AssetMismatch
  else if inp.record.vault_state ≠ 0 ∧
      (listCardLoadRecord inp).template_id ≠ inp.templateId then
    Except.error MochiError.TemplateMismatch
  else if inp.record.vault_state ≠ 0 ∧
      (listCardLoadRecord inp).rarity ≠ inp.rarity then
    Except.error MochiError.RarityMismatch
  else if ¬ ((listCardLoadRecord inp).owner = inp.sellerKey ∨
      (listCardLoadRecord inp).owner = inp.vaultAuthorityKey) then
    Except.error MochiError.Unauthorized
  else if ¬ ((listCardLoadRecord inp).status = CardStatus.UserOwned ∨
      (listCardLoadRecord inp).status = CardStatus.Available) then
    Except.error MochiError.CardNotAvailable
  else
    Except.ok
      ({ listCardLoadRecord inp with status := CardStatus.Reserved
                                     owner := inp.vaultAuthorityKey },
       { vault_state := inp.vaultKey
         seller := inp.sellerKey
         core_asset := (listCardLoadRecord inp).core_asset
         price_lamports := inp.priceLamports
         currency_mint := inp.currencyMint
         status := ListingStatus.Active })

/-- Instruction arguments of `migrate_vault_state` (lib.rs:93-103). -/
structure MigrateParams where
  pack_price_sol : Nat
  pack_price_usdc : Nat
  buyback_bps : Nat
  claim_window_seconds : Int
  marketplace_fee_bps : Nat
  usdc_mint : Option Pubkey
  mochi_mint : Option Pubkey
  reward_per_pack : Nat
  deriving DecidableEq, Repr

/-- Vault migration `migrate_vault_state` (lib.rs:93-195).  The handler
reads the signer's key, re-derives the vault authority from the vault PDA
(`find_program_address`, modelled by the explicit `deriveAuth` argument),
tops up rent and reallocates (resource obligations of the external ledger,
funded by the caller; neither depends on identity), zero-fills the account
and rewrites every field at fixed offsets.  The previous contents
`oldState` are never read, and no comparison against the recorded admin is
made anywhere in the handler or in its `MigrateVaultState` account struct
(lib.rs:2175-2183): the stored admin becomes the caller's key
(lib.rs:138-140) and `core_collection` is always written as `None`
(lib.rs:160-162). -/
def migrateVaultState (deriveAuth : Pubkey → Pubkey × Nat)
    (caller vaultKey : Pubkey) (oldState : VaultState) (p : MigrateParams) :
    VaultState :=
  { admin := caller
    vault_authority := (deriveAuth vaultKey).1
    pack_price_sol := p.pack_price_sol
    pack_price_usdc := p.pack_price_usdc
    buyback_bps := p.buyback_bps
    claim_window_seconds := p.claim_window_seconds
    marketplace_fee_bps := p.marketplace_fee_bps
    core_collection := none
    usdc_mint := p.usdc_mint
    mochi_mint := p.mochi_mint
    reward_per_pack := p.reward_per_pack
    vault_authority_bump := (deriveAuth vaultKey).2 }

deriving instance DecidableEq for Except

/-- Sellback payout stated from the specification's words ("payout =
floor(Σ reference prices × buyback_bps / 10000)"), for comparison with the
payout the handlers actually compute. -/
def specSellbackPayout (prices : List Nat) (buybackBps : Nat) : Nat :=
  prices.sum * buybackBps / 10000

/-- Example vault configuration used by the concrete evaluations: admin 9,
custody authority 2, SOL price 1000, token price 500, buyback 5000 bps,
600-second claim window, marketplace fee 250 bps, no optional mints. -/
def vaultEx : VaultState :=
  { admin := 9
    vault_authority := 2
    pack_price_sol := 1000
    pack_price_usdc := 500
    buyback_bps := 5000
    claim_window_seconds := 600
    marketplace_fee_bps := 250
    core_collection := none
    usdc_mint := none
    mochi_mint := none
    reward_per_pack := 0
    vault_authority_bump := 255 }

/-- A freshly created lightweight session account: `init_if_needed`
zero-fills new accounts, which deserializes as the all-default record in
state `Uninitialized`. -/
def blankSessionV2 : PackSessionV2 :=
  { user := 0
    currency := Currency.Sol
    paid_amount := 0
    created_at := 0
    expires_at := 0
    rare_card_keys := []
    rare_templates := []
    state := PackState.Uninitialized
    client_seed_hash := 0
    total_slots := 0 }

/-- A full-pack session for user 3 in `PendingDecision`, unexpired until
time 100. -/
def pendingV1SessionEx : PackSession :=
  { user := 3
    currency := Currency.Sol
    paid_amount := 1000
    created_at := 0
    expires_at := 100
    card_record_keys := [101, 102, 103, 104, 105, 106, 107, 108, 109, 110, 111]
    state := PackState.PendingDecision
    client_seed_hash := 0
    rarity_prices := [10, 10, 10, 10, 10, 10, 10, 10, 10, 10, 10] }

/-- An `Available` rare card of vault 1, held by the custody authority 2. -/
def rareCardEx : CardRecord :=
  { vault_state := 1
    core_asset := 50
    template_id := 7
    rarity := Rarity.Rare
    status := CardStatus.Available
    owner := 2 }

/-- Lightweight open by user 3 at time 50, while the same user's full-pack
session `pendingV1SessionEx` is `PendingDecision` and unexpired.  The
lightweight handler reads only its own `pack_session_v2` PDA, which is
fresh (`blankSessionV2`). -/
def openV2InputC1 : OpenPackV2Input :=
  { vaultKey := 1
    vault := vaultEx
    vaultAuthorityKey := 2
    user := 3
    now := 50
    session := blankSessionV2
    currency := Currency.Sol
    clientSeedHash := 0
    rareTemplates := [7]
    rareCards := [(40, rareCardEx)]
    userTokenAcc := none
    vaultTokenAcc := none
    suppliedMochiMintKey := 0
    suppliedMochiMintAuthority := none
    userMochiToken := { mint := 0, owner := 0 } }

/-- Lightweight open whose own session is already `PendingDecision` and
unexpired (second open of the same variant). -/
def openV2InputC1W : OpenPackV2Input :=
  { vaultKey := 1
    vault := vaultEx
    vaultAuthorityKey := 2
    user := 3
    now := 50
    session :=
      { user := 3
        currency := Currency.Sol
        paid_amount := 1000
        created_at := 0
        expires_at := 100
        rare_card_keys := [40]
        rare_templates := [7]
        state := PackState.PendingDecision
        client_seed_hash := 0
        total_slots := 11 }
    currency := Currency.Sol
    clientSeedHash := 0
    rareTemplates := []
    rareCards := []
    userTokenAcc := none
    vaultTokenAcc := none
    suppliedMochiMintKey := 0
    suppliedMochiMintAuthority := none
    userMochiToken := { mint := 0, owner := 0 } }

/-- Eleven `Available` cards of vault 1 at keys 101..111. -/
def availableCardsEx : List (Pubkey × CardRecord) :=
  (List.range PACK_CARD_COUNT).map
    (fun i =>
      (101 + i,
        { vault_state := 1
          core_asset := 201 + i
          template_id := i
          rarity := Rarity.Common
          status := CardStatus.Available
          owner := 2 }))

/-- Full-pack open whose session is already `PendingDecision` (second open
of the full variant), paying in SOL with sufficient funds. -/
def openStartInputC1W : OpenPackStartInput :=
  { vaultKey := 1
    vault := vaultEx
    user := 3
    userLamports := 5000
    now := 50
    session := pendingV1SessionEx
    currency := Currency.Sol
    clientSeedHash := 0
    rarityPrices := [10, 10, 10, 10, 10, 10, 10, 10, 10, 10, 10]
    remainingCards := availableCardsEx
    userTokenAcc := none
    vaultTokenAcc := none }

/-- Lightweight open over a batch whose single card is below `Rare`: the
declared template matches but the rarity check fails. -/
def openV2InputC2W : OpenPackV2Input :=
  { vaultKey := 1
    vault := vaultEx
    vaultAuthorityKey := 2
    user := 3
    now := 50
    session := blankSessionV2
    currency := Currency.Sol
    clientSeedHash := 0
    rareTemplates := [7]
    rareCards :=
      [(40,
        { vault_state := 1
          core_asset := 50
          template_id := 7
          rarity := Rarity.Common
          status := CardStatus.Available
          owner := 2 })]
    userTokenAcc := none
    vaultTokenAcc := none
    suppliedMochiMintKey := 0
    suppliedMochiMintAuthority := none
    userMochiToken := { mint := 0, owner := 0 } }

/-- Full-pack open over a batch [Available ×10, Reserved]: one record of
the 11 is not `Available`. -/
def openStartInputC2W : OpenPackStartInput :=
  { vaultKey := 1
    vault := vaultEx
    user := 3
    userLamports := 5000
    now := 50
    session :=
      { pendingV1SessionEx with state := PackState.Uninitialized }
    currency := Currency.Sol
    clientSeedHash := 0
    rarityPrices := []
    remainingCards :=
      (availableCardsEx.take 10) ++
        [(111,
          { vault_state := 1
            core_asset := 211
            template_id := 10
            rarity := Rarity.Common
            status := CardStatus.Reserved
            owner := 4 })]
    userTokenAcc := none
    vaultTokenAcc := none }

/-- A lightweight `PendingDecision` session: user 3 paid 1000 in SOL, one
rare reservation at key 40, template 7, unexpired until time 100.  The
lightweight session carries no per-slot price list — only the declared
templates. -/
def pendingV2SessionEx : PackSessionV2 :=
  { user := 3
    currency := Currency.Sol
    paid_amount := 1000
    created_at := 0
    expires_at := 100
    rare_card_keys := [40]
    rare_templates := [7]
    state := PackState.PendingDecision
    client_seed_hash := 0
    total_slots := 11 }

/-- The rare card of `pendingV2SessionEx`, reserved by user 3. -/
def reservedRareCardEx : CardRecord :=
  { vault_state := 1
    core_asset := 50
    template_id := 7
    rarity := Rarity.Rare
    status := CardStatus.Reserved
    owner := 3 }

/-- Lightweight sellback by user 3 at time 50 on `pendingV2SessionEx`. -/
def sellbackV2InputC3 : ResolveV2Input :=
  { vaultKey := 1
    vault := vaultEx
    vaultAuthorityKey := 2
    user := 3
    now := 50
    session := pendingV2SessionEx
    cardAccounts := [(40, reservedRareCardEx)]
    userTokenAcc := none
    vaultTokenAcc := none }

/-- Eleven `Reserved` cards of vault 1 held (as reservations) by user 3, at
keys 100..110. -/
def reservedCardsC4 : List (Pubkey × CardRecord) :=
  (List.range PACK_CARD_COUNT).map
    (fun i =>
      (100 + i,
        { vault_state := 1
          core_asset := 200 + i
          template_id := i
          rarity := Rarity.Common
          status := CardStatus.Reserved
          owner := 3 }))

/-- The full-pack session matching `reservedCardsC4`: reference prices
[100, 200, 300] on the rare slots and 0 elsewhere, unexpired until 100. -/
def pendingV1SessionC4 : PackSession :=
  { user := 3
    currency := Currency.Sol
    paid_amount := 1000
    created_at := 0
    expires_at := 100
    card_record_keys := (List.range PACK_CARD_COUNT).map (fun i => 100 + i)
    state := PackState.PendingDecision
    client_seed_hash := 0
    rarity_prices := [100, 200, 300, 0, 0, 0, 0, 0, 0, 0, 0] }

/-- Full-pack sellback by user 3 at time 50 with all 11 card records and 11
asset accounts supplied. -/
def sellbackV1InputC4 : ResolveV1Input :=
  { vaultKey := 1
    vault := vaultEx
    vaultAuthorityKey := 2
    user := 3
    now := 50
    session := pendingV1SessionC4
    cardAccounts := reservedCardsC4
    assetCount := PACK_CARD_COUNT
    userTokenAcc := none
    vaultTokenAcc := none }

/-- Full-pack sellback used to instantiate the payout formula: reference
prices [100, 200, 300] and buyback 5000 bps. -/
def sellbackV1InputC3W : ResolveV1Input :=
  { vaultKey := 1
    vault := vaultEx
    vaultAuthorityKey := 2
    user := 3
    now := 50
    session := { pendingV1SessionC4 with rarity_prices := [100, 200, 300] }
    cardAccounts := reservedCardsC4
    assetCount := PACK_CARD_COUNT
    userTokenAcc := none
    vaultTokenAcc := none }

/-- Lightweight sellback used to instantiate the payout formula: paid
amount 1000 and buyback 5000 bps. -/
def sellbackV2InputC3W : ResolveV2Input :=
  { vaultKey := 1
    vault := vaultEx
    vaultAuthorityKey := 2
    user := 3
    now := 100
    session := pendingV2SessionEx
    cardAccounts := [(40, reservedRareCardEx)]
    userTokenAcc := none
    vaultTokenAcc := none }

/-- A full-pack session in `PendingDecision` whose slots are all still
`Reserved`: the slot keys are 100..110 and none of the slot records has
reached `UserOwned`. -/
def pendingV1SessionC5 : PackSession :=
  { user := 3
    currency := Currency.Sol
    paid_amount := 1000
    created_at := 0
    expires_at := 100
    card_record_keys := (List.range PACK_CARD_COUNT).map (fun i => 100 + i)
    state := PackState.PendingDecision
    client_seed_hash := 0
    rarity_prices := [100, 200, 300, 0, 0, 0, 0, 0, 0, 0, 0] }

/-- The record stored at slot key 100 of `pendingV1SessionC5`: still
`Reserved`, not `UserOwned`. -/
def reservedSlotRecordC5 : CardRecord :=
  { vault_state := 1
    core_asset := 200
    template_id := 0
    rarity := Rarity.Common
    status := CardStatus.Reserved
    owner := 3 }

/-- A record in terminal state `UserOwned` by user 3, used to instantiate
the positive finalize branch. -/
def userOwnedRecordW : CardRecord :=
  { vault_state := 1
    core_asset := 200
    template_id := 0
    rarity := Rarity.Common
    status := CardStatus.UserOwned
    owner := 3 }

/-- Lightweight open by user 5 of an `Available` rare card currently held
by the custody authority 2. -/
def openV2InputC6 : OpenPackV2Input :=
  { vaultKey := 1
    vault := vaultEx
    vaultAuthorityKey := 2
    user := 5
    now := 50
    session := blankSessionV2
    currency := Currency.Sol
    clientSeedHash := 0
    rareTemplates := [7]
    rareCards := [(41, rareCardEx)]
    userTokenAcc := none
    vaultTokenAcc := none
    suppliedMochiMintKey := 0
    suppliedMochiMintAuthority := none
    userMochiToken := { mint := 0, owner := 0 } }

/-- Lightweight sellback instance for the ownership theorem. -/
def sellbackV2InputC6W : ResolveV2Input :=
  { vaultKey := 1
    vault := vaultEx
    vaultAuthorityKey := 2
    user := 3
    now := 50
    session := pendingV2SessionEx
    cardAccounts := [(40, reservedRareCardEx)]
    userTokenAcc := none
    vaultTokenAcc := none }

/-- Marketplace listing instance for the ownership theorem: seller 6 lists
a `UserOwned` asset. -/
def listCardInputC6W : ListCardInput :=
  { sellerKey := 6
    vaultKey := 1
    vaultAuthorityKey := 2
    coreAssetKey := 50
    record :=
      { vault_state := 1
        core_asset := 50
        template_id := 7
        rarity := Rarity.Rare
        status := CardStatus.UserOwned
        owner := 6 }
    priceLamports := 1000
    currencyMint := none
    templateId := 7
    rarity := Rarity.Rare }

/-- An `Active` listing of asset 50 by seller 6 at price 1000. -/
def listingEx : Listing :=
  { vault_state := 1
    seller := 6
    core_asset := 50
    price_lamports := 1000
    currency_mint := none
    status := ListingStatus.Active }

/-- Marketplace fill: buyer 8 fills `listingEx` under the example vault
(fee 250 bps), supplying the matching card record. -/
def fillInputC7W : FillListingInput :=
  { buyer := 8
    seller := 6
    vault := vaultEx
    record :=
      { vault_state := 1
        core_asset := 50
        template_id := 7
        rarity := Rarity.Rare
        status := CardStatus.Reserved
        owner := 2 }
    listing := listingEx
    vaultAuthorityKey := 2 }

/-- Marketplace fill where the supplied card record is unrelated to the
listing: different vault (99), different asset (55), terminal status
`Burned`, owned by 8. -/
def fillInputC10W : FillListingInput :=
  { buyer := 8
    seller := 6
    vault := vaultEx
    record :=
      { vault_state := 99
        core_asset := 55
        template_id := 1
        rarity := Rarity.Common
        status := CardStatus.Burned
        owner := 8 }
    listing := listingEx
    vaultAuthorityKey := 2 }

/-- A lightweight `PendingDecision` session of user 3 that expired at time
100. -/
def expiredV2SessionC8 : PackSessionV2 :=
  { user := 3
    currency := Currency.Sol
    paid_amount := 1000
    created_at := 0
    expires_at := 100
    rare_card_keys := [40]
    rare_templates := [7]
    state := PackState.PendingDecision
    client_seed_hash := 0
    total_slots := 11 }

/-- The ledger's session accounts per user key: user 3 holds the expired
`PendingDecision` session; every other user's session PDA is fresh. -/
def sessionsC8 : Pubkey → PackSessionV2 :=
  fun k => if k = 3 then expiredV2SessionC8 else blankSessionV2

/-- A full-pack `PendingDecision` session of user 3 that expired at time
100, with slot keys 100..110. -/
def expiredV1SessionC8 : PackSession :=
  { user := 3
    currency := Currency.Sol
    paid_amount := 1000
    created_at := 0
    expires_at := 100
    card_record_keys := (List.range PACK_CARD_COUNT).map (fun i => 100 + i)
    state := PackState.PendingDecision
    client_seed_hash := 0
    rarity_prices := [10, 10, 10, 10, 10, 10, 10, 10, 10, 10, 10] }

/-- A freshly created (all-zero) full-pack session account. -/
def blankSessionV1 : PackSession :=
  { user := 0
    currency := Currency.Sol
    paid_amount := 0
    created_at := 0
    expires_at := 0
    card_record_keys := []
    state := PackState.Uninitialized
    client_seed_hash := 0
    rarity_prices := [] }

/-- The ledger's full-pack session accounts per user key: user 3 holds the
expired `PendingDecision` session; every other user's session PDA is
fresh. -/
def sessionsV1C8 : Pubkey → PackSession :=
  fun k => if k = 3 then expiredV1SessionC8 else blankSessionV1

/-- Migration parameter instance. -/
def migrateParamsEx : MigrateParams :=
  { pack_price_sol := 1000
    pack_price_usdc := 500
    buyback_bps := 5000
    claim_window_seconds := 600
    marketplace_fee_bps := 250
    usdc_mint := none
    mochi_mint := none
    reward_per_pack := 0 }
/-- Soundness of the lightweight reservation loop: a successful run means
every supplied record, paired with its declared template, passed the
per-card validation. -/
theorem reserveRareCards_ok_valid (vaultKey user : Pubkey)
    (cards : List (Pubkey × CardRecord)) (templates : List Nat)
    (out : List (Pubkey × CardRecord))
    (h : reserveRareCards vaultKey user cards templates = Except.ok out) :
    ∀ p ∈ cards.zip templates, validRareCard vaultKey p.1.2 p.2 := by
  induction cards generalizing templates out with
  | nil =>
    intro p hp
    simp at hp
  | cons hd tl ih =>
    obtain ⟨k, c⟩ := hd
    cases templates with
    | nil => simp [reserveRareCards] at h
    | cons t ts =>
      rw [reserveRareCards] at h
      split at h
      · exact absurd h (by simp)
      split at h
      · exact absurd h (by simp)
      split at h
      · exact absurd h (by simp)
      split at h
      · exact absurd h (by simp)
      split at h
      · exact absurd h (by simp)
      · rename_i rest hrest
        intro p hp
        rw [List.zip_cons_cons, List.mem_cons] at hp
        rcases hp with hp | hp
        · subst hp
          simp only [ne_eq, not_not] at *
          exact ⟨by assumption, by assumption, by assumption, by assumption⟩
        · exact ih ts rest hrest p hp

/-- The lightweight reservation loop fails whenever any supplied record
fails validation. -/
theorem reserveRareCards_error_of_invalid (vaultKey user : Pubkey)
    (cards : List (Pubkey × CardRecord)) (templates : List Nat)
    (h : ∃ p ∈ cards.zip templates, ¬ validRareCard vaultKey p.1.2 p.2) :
    ∃ e, reserveRareCards vaultKey user cards templates = Except.error e := by
  cases hres : reserveRareCards vaultKey user cards templates with
  | error e => exact ⟨e, rfl⟩
  | ok out =>
    obtain ⟨p, hp, hnp⟩ := h
    exact absurd (reserveRareCards_ok_valid vaultKey user cards templates out hres p hp) hnp

/-- Every record written back by the lightweight reservation loop is
`Reserved` and owned by the user. -/
theorem reserveRareCards_ok_reserved (vaultKey user : Pubkey)
    (cards : List (Pubkey × CardRecord)) (templates : List Nat)
    (out : List (Pubkey × CardRecord))
    (h : reserveRareCards vaultKey user cards templates = Except.ok out) :
    ∀ p ∈ out, p.2.status = CardStatus.Reserved ∧ p.2.owner = user := by
  induction cards generalizing templates out with
  | nil =>
    cases templates with
    | nil =>
      rw [reserveRareCards] at h
      cases h
      intro p hp
      simp at hp
    | cons t ts => simp [reserveRareCards] at h
  | cons hd tl ih =>
    obtain ⟨k, c⟩ := hd
    cases templates with
    | nil => simp [reserveRareCards] at h
    | cons t ts =>
      rw [reserveRareCards] at h
      split at h
      · exact absurd h (by simp)
      split at h
      · exact absurd h (by simp)
      split at h
      · exact absurd h (by simp)
      split at h
      · exact absurd h (by simp)
      split at h
      · exact absurd h (by simp)
      · rename_i rest hrest
        cases h
        intro p hp
        rcases List.mem_cons.mp hp with hp | hp
        · subst hp
          exact ⟨rfl, rfl⟩
        · exact ih ts rest hrest p hp
/-- Soundness of the full-pack reservation loop: a successful run means
every supplied record passed the vault and availability checks. -/
theorem reservePackCards_ok_valid (vaultKey user : Pubkey)
    (cards : List (Pubkey × CardRecord)) (out : List (Pubkey × CardRecord))
    (h : reservePackCards vaultKey user cards = Except.ok out) :
    ∀ p ∈ cards, validPackCard vaultKey p.2 := by
  induction cards generalizing out with
  | nil =>
    intro p hp
    simp at hp
  | cons hd tl ih =>
    obtain ⟨k, c⟩ := hd
    rw [reservePackCards] at h
    split at h
    · exact absurd h (by simp)
    split at h
    · exact absurd h (by simp)
    split at h
    · exact absurd h (by simp)
    · rename_i rest hrest
      intro p hp
      rcases List.mem_cons.mp hp with hp | hp
      · subst hp
        simp only [ne_eq, not_not] at *
        exact ⟨by assumption, by assumption⟩
      · exact ih rest hrest p hp

/-- The full-pack reservation loop fails whenever any supplied record
fails validation. -/
theorem reservePackCards_error_of_invalid (vaultKey user : Pubkey)
    (cards : List (Pubkey × CardRecord))
    (h : ∃ p ∈ cards, ¬ validPackCard vaultKey p.2) :
    ∃ e, reservePackCards vaultKey user cards = Except.error e := by
  cases hres : reservePackCards vaultKey user cards with
  | error e => exact ⟨e, rfl⟩
  | ok out =>
    obtain ⟨p, hp, hnp⟩ := h
    exact absurd (reservePackCards_ok_valid vaultKey user cards out hres p hp) hnp

/-- Every record written back by the full-pack reservation loop is
`Reserved` and owned by the user. -/
theorem reservePackCards_ok_reserved (vaultKey user : Pubkey)
    (cards : List (Pubkey × CardRecord)) (out : List (Pubkey × CardRecord))
    (h : reservePackCards vaultKey user cards = Except.ok out) :
    ∀ p ∈ out, p.2.status = CardStatus.Reserved ∧ p.2.owner = user := by
  induction cards generalizing out with
  | nil =>
    rw [reservePackCards] at h
    cases h
    intro p hp
    simp at hp
  | cons hd tl ih =>
    obtain ⟨k, c⟩ := hd
    rw [reservePackCards] at h
    split at h
    · exact absurd h (by simp)
    split at h
    · exact absurd h (by simp)
    split at h
    · exact absurd h (by simp)
    · rename_i rest hrest
      cases h
      intro p hp
      rcases List.mem_cons.mp hp with hp | hp
      · subst hp
        exact ⟨rfl, rfl⟩
      · exact ih rest hrest p hp

/-- Every record written back by the sellback release loop is `Available`
and owned by the vault authority. -/
theorem releaseReservedCards_ok_released (user auth : Pubkey)
    (cards : List (Pubkey × CardRecord)) (keys : List Pubkey)
    (out : List (Pubkey × CardRecord))
    (h : releaseReservedCards user auth cards keys = Except.ok out) :
    ∀ p ∈ out, p.2.status = CardStatus.Available ∧ p.2.owner = auth := by
  induction cards generalizing keys out with
  | nil =>
    cases keys with
    | nil =>
      rw [releaseReservedCards] at h
      cases h
      intro p hp
      simp at hp
    | cons key ks => simp [releaseReservedCards] at h
  | cons hd tl ih =>
    obtain ⟨k, c⟩ := hd
    cases keys with
    | nil => simp [releaseReservedCards] at h
    | cons key ks =>
      rw [releaseReservedCards] at h
      split at h
      · exact absurd h (by simp)
      split at h
      · exact absurd h (by simp)
      split at h
      · exact absurd h (by simp)
      split at h
      · exact absurd h (by simp)
      · rename_i rest hrest
        cases h
        intro p hp
        rcases List.mem_cons.mp hp with hp | hp
        · subst hp
          exact ⟨rfl, rfl⟩
        · exact ih ks rest hrest p hp

/-- The sellback release loop succeeds on a batch whose keys match the
session's recorded keys and whose records are all `Reserved` by the user,
and releases every record to the vault authority. -/
theorem releaseReservedCards_complete (user auth : Pubkey)
    (cards : List (Pubkey × CardRecord)) (keys : List Pubkey)
    (hk : cards.map Prod.fst = keys)
    (hr : ∀ p ∈ cards, p.2.status = CardStatus.Reserved ∧ p.2.owner = user) :
    releaseReservedCards user auth cards keys =
      Except.ok (cards.map
        (fun p =>
          (p.1, { p.2 with status := CardStatus.Available, owner := auth }))) := by
  induction cards generalizing keys with
  | nil =>
    simp only [List.map_nil] at hk
    subst hk
    rfl
  | cons hd tl ih =>
    obtain ⟨k, c⟩ := hd
    simp only [List.map_cons] at hk
    subst hk
    have hs : c.status = CardStatus.Reserved :=
      (hr (k, c) (List.mem_cons_self _ _)).1
    have ho : c.owner = user := (hr (k, c) (List.mem_cons_self _ _)).2
    rw [releaseReservedCards, if_neg (by simp), if_neg (by simp [hs]),
      if_neg (by simp [ho]),
      ih (tl.map Prod.fst) rfl (fun p hp => hr p (List.mem_cons_of_mem _ hp))]
    rfl

/-- Every record written back by the expire release loop is `Available`
and owned by the vault authority. -/
theorem releaseExpiredCards_ok_released (auth : Pubkey)
    (cards : List (Pubkey × CardRecord)) (keys : List Pubkey)
    (out : List (Pubkey × CardRecord))
    (h : releaseExpiredCards auth cards keys = Except.ok out) :
    ∀ p ∈ out, p.2.status = CardStatus.Available ∧ p.2.owner = auth := by
  induction cards generalizing keys out with
  | nil =>
    cases keys with
    | nil =>
      rw [releaseExpiredCards] at h
      cases h
      intro p hp
      simp at hp
    | cons key ks => simp [releaseExpiredCards] at h
  | cons hd tl ih =>
    obtain ⟨k, c⟩ := hd
    cases keys with
    | nil => simp [releaseExpiredCards] at h
    | cons key ks =>
      rw [releaseExpiredCards] at h
      split at h
      · exact absurd h (by simp)
      split at h
      · exact absurd h (by simp)
      split at h
      · exact absurd h (by simp)
      · rename_i rest hrest
        cases h
        intro p hp
        rcases List.mem_cons.mp hp with hp | hp
        · subst hp
          exact ⟨rfl, rfl⟩
        · exact ih ks rest hrest p hp

/-- The expire release loop succeeds on a batch whose keys match the
session's recorded keys and whose records are all `Reserved`. -/
theorem releaseExpiredCards_complete (auth : Pubkey)
    (cards : List (Pubkey × CardRecord)) (keys : List Pubkey)
    (hk : cards.map Prod.fst = keys)
    (hr : ∀ p ∈ cards, p.2.status = CardStatus.Reserved) :
    releaseExpiredCards auth cards keys =
      Except.ok (cards.map
        (fun p =>
          (p.1, { p.2 with status := CardStatus.Available, owner := auth }))) := by
  induction cards generalizing keys with
  | nil =>
    simp only [List.map_nil] at hk
    subst hk
    rfl
  | cons hd tl ih =>
    obtain ⟨k, c⟩ := hd
    simp only [List.map_cons] at hk
    subst hk
    have hs : c.status = CardStatus.Reserved :=
      hr (k, c) (List.mem_cons_self _ _)
    rw [releaseExpiredCards, if_neg (by simp), if_neg (by simp [hs]),
      ih (tl.map Prod.fst) rfl (fun p hp => hr p (List.mem_cons_of_mem _ hp))]
    rfl

/-- The finalize verification loop succeeds exactly when every supplied
record is `UserOwned` and owned by the caller. -/
theorem checkAllUserOwned_ok_iff (user : Pubkey) (l : List CardRecord) :
    checkAllUserOwned user l = Except.ok () ↔
      ∀ c ∈ l, c.status = CardStatus.UserOwned ∧ c.owner = user := by
  induction l with
  | nil => simp [checkAllUserOwned]
  | cons c cs ih =>
    rw [checkAllUserOwned]
    by_cases h1 : c.status = CardStatus.UserOwned
    · rw [if_neg (by simp [h1])]
      by_cases h2 : c.owner = user
      · rw [if_neg (by simp [h2])]
        simp [ih, h1, h2]
      · rw [if_pos (by simp [h2])]
        simp [h2]
    · rw [if_pos (by simp [h1])]
      simp [h1]
/-- C1 counterexample: with user 3's full-pack session `PendingDecision`
and unexpired at time 50 (`pendingV1SessionEx`), the lightweight open
`open_pack` for the very same (vault, user) still succeeds — it consults
only its own `pack_session_v2` PDA, which is fresh — and reserves a card,
leaving two `PendingDecision` sessions for the pair.  The claimed "a
second open call (any variant) fails with InvalidState and reserves
nothing" is therefore false across variants. -/
theorem secondOpenAcrossVariantsSucceeds :
    pendingV1SessionEx.state = PackState.PendingDecision ∧
    pendingV1SessionEx.user = 3 ∧ openV2InputC1.user = 3 ∧
    openV2InputC1.now = 50 ∧ (50 : Int) ≤ pendingV1SessionEx.expires_at ∧
    (openPackV2 openV2InputC1).map (fun r => r.session.state) =
      Except.ok PackState.PendingDecision ∧
    (openPackV2Persisted openV2InputC1).cards.map (fun p => p.2.status) =
      [CardStatus.Reserved] := by
  decide

/-- C1 (corrected): per session variant, at most one `PendingDecision`
session per (vault, user).  A second open of the lightweight variant while
its own session is `PendingDecision` and unexpired fails with
`SessionExists` (the session-state error) and persists nothing; a second
open of the full variant while its own session is `PendingDecision`
likewise fails with `SessionExists` and persists nothing.  Across the two
variants no exclusion is enforced (see the counterexample). -/
theorem secondOpenSameVariantFails
    (a : OpenPackV2Input) (b : OpenPackStartInput)
    (ha1 : a.session.state = PackState.PendingDecision)
    (ha2 : a.now ≤ a.session.expires_at)
    (ha3 : a.rareTemplates.length ≤ MAX_RARE_CARDS)
    (ha4 : a.rareTemplates.length ≤ a.rareCards.length)
    (hb1 : b.session.state = PackState.PendingDecision)
    (hb2 : PACK_CARD_COUNT ≤ b.remainingCards.length)
    (hb3 : b.currency = Currency.Sol)
    (hb4 : 0 < b.vault.pack_price_sol)
    (hb5 : b.vault.pack_price_sol ≤ b.userLamports) :
    openPackV2 a = Except.error MochiError.SessionExists ∧
    openPackV2Persisted a =
      { session := a.session, cards := a.rareCards, treasuryReceived := 0 } ∧
    openPackStart b = Except.error MochiError.SessionExists ∧
    openPackStartPersisted b =
      { session := b.session, cards := b.remainingCards,
        treasuryReceived := 0 } := by
  have hA : openPackV2 a = Except.error MochiError.SessionExists := by
    unfold openPackV2
    rw [if_neg (by omega), if_neg (by omega), if_pos ⟨ha1, ha2⟩]
  have hB : openPackStart b = Except.error MochiError.SessionExists := by
    unfold openPackStart
    rw [if_neg (by omega), if_neg (by simp [hb3])]
    have hpay : openPackStartPayment b.vault b.currency b.userLamports
        b.userTokenAcc b.vaultTokenAcc = Except.ok b.vault.pack_price_sol := by
      rw [hb3]
      unfold openPackStartPayment
      rw [if_neg (by omega), if_neg (by omega)]
    rw [hpay]
    dsimp only
    rw [if_pos hb1]
  refine ⟨hA, ?_, hB, ?_⟩
  · simp [openPackV2Persisted, hA]
  · simp [openPackStartPersisted, hB]

/-- C1 witness: concrete second-open instances of both variants, each with
its own session already `PendingDecision` (and unexpired). -/
theorem secondOpenSameVariantFailsW :
    (openV2InputC1W.session.state = PackState.PendingDecision ∧
      openV2InputC1W.now ≤ openV2InputC1W.session.expires_at ∧
      openStartInputC1W.session.state = PackState.PendingDecision) ∧
    (openPackV2 openV2InputC1W = Except.error MochiError.SessionExists ∧
      openPackV2Persisted openV2InputC1W =
        { session := openV2InputC1W.session, cards := openV2InputC1W.rareCards,
          treasuryReceived := 0 } ∧
      openPackStart openStartInputC1W = Except.error MochiError.SessionExists ∧
      openPackStartPersisted openStartInputC1W =
        { session := openStartInputC1W.session,
          cards := openStartInputC1W.remainingCards,
          treasuryReceived := 0 }) :=
  ⟨⟨by decide, by decide, by decide⟩,
    secondOpenSameVariantFails openV2InputC1W openStartInputC1W (by decide)
      (by decide) (by decide) (by decide) (by decide) (by decide) (by decide)
      (by decide) (by decide)⟩

/-- C2 (confirmed): if any referenced card of an open batch fails
validation — wrong vault or not `Available`, and in the lightweight
variant additionally rarity below `Rare` or declared-template mismatch —
the entire call fails and nothing persists: no card record changes, the
session is not written, and no payment is retained.  Stated for both
variants. -/
theorem openRejectsInvalidBatchAtomically
    (a : OpenPackV2Input) (b : OpenPackStartInput)
    (ha : ∃ p ∈ (a.rareCards.take a.rareTemplates.length).zip a.rareTemplates,
      ¬ validRareCard a.vaultKey p.1.2 p.2)
    (hb : ∃ p ∈ b.remainingCards.take PACK_CARD_COUNT,
      ¬ validPackCard b.vaultKey p.2) :
    (∃ e, openPackV2 a = Except.error e) ∧
    openPackV2Persisted a =
      { session := a.session, cards := a.rareCards, treasuryReceived := 0 } ∧
    (∃ e, openPackStart b = Except.error e) ∧
    openPackStartPersisted b =
      { session := b.session, cards := b.remainingCards,
        treasuryReceived := 0 } := by
  have hA : ∃ e, openPackV2 a = Except.error e := by
    unfold openPackV2
    split
    · exact ⟨_, rfl⟩
    · split
      · exact ⟨_, rfl⟩
      · split
        · exact ⟨_, rfl⟩
        · split
          · exact ⟨_, rfl⟩
          · split
            · exact ⟨_, rfl⟩
            · rename_i reserved hres
              obtain ⟨p, hp, hnp⟩ := ha
              exact absurd
                (reserveRareCards_ok_valid _ _ _ _ _ hres p hp) hnp
  have hB : ∃ e, openPackStart b = Except.error e := by
    unfold openPackStart
    split
    · exact ⟨_, rfl⟩
    · split
      · exact ⟨_, rfl⟩
      · split
        · exact ⟨_, rfl⟩
        · split
          · exact ⟨_, rfl⟩
          · split
            · exact ⟨_, rfl⟩
            · rename_i reserved hres
              obtain ⟨p, hp, hnp⟩ := hb
              exact absurd (reservePackCards_ok_valid _ _ _ _ hres p hp) hnp
  obtain ⟨eA, heA⟩ := hA
  obtain ⟨eB, heB⟩ := hB
  exact ⟨⟨eA, heA⟩, by simp [openPackV2Persisted, heA], ⟨eB, heB⟩,
    by simp [openPackStartPersisted, heB]⟩

/-- C2 witness: a lightweight batch whose single card is below `Rare`, and
a full batch [Available ×10, Reserved ×1]; both calls fail with zero
mutation. -/
theorem openRejectsInvalidBatchAtomicallyW :
    ((∃ p ∈ (openV2InputC2W.rareCards.take
        openV2InputC2W.rareTemplates.length).zip openV2InputC2W.rareTemplates,
      ¬ validRareCard openV2InputC2W.vaultKey p.1.2 p.2) ∧
      (∃ p ∈ openStartInputC2W.remainingCards.take PACK_CARD_COUNT,
        ¬ validPackCard openStartInputC2W.vaultKey p.2)) ∧
    ((∃ e, openPackV2 openV2InputC2W = Except.error e) ∧
      openPackV2Persisted openV2InputC2W =
        { session := openV2InputC2W.session, cards := openV2InputC2W.rareCards,
          treasuryReceived := 0 } ∧
      (∃ e, openPackStart openStartInputC2W = Except.error e) ∧
      openPackStartPersisted openStartInputC2W =
        { session := openStartInputC2W.session,
          cards := openStartInputC2W.remainingCards,
          treasuryReceived := 0 }) :=
  ⟨⟨by decide, by decide⟩,
    openRejectsInvalidBatchAtomically openV2InputC2W openStartInputC2W
      (by decide) (by decide)⟩
/-- C3 counterexample: `sellback_pack_v2` computes the payout from the
session's `paid_amount`, not from reference prices — the lightweight
session stores no per-slot price list at all (only `rare_templates`).
Here the call pays 1000 × 5000 / 10000 = 500, while the specification's
formula over the session's (empty) reference-price list yields 0. -/
theorem sellbackV2PayoutIgnoresReferencePrices :
    (sellbackPackV2 sellbackV2InputC3).map (fun r => r.payout) =
      Except.ok 500 ∧
    sellbackV2InputC3.session.paid_amount = 1000 ∧
    sellbackV2InputC3.vault.buyback_bps = 5000 ∧
    specSellbackPayout [] sellbackV2InputC3.vault.buyback_bps = 0 ∧
    (500 : Nat) ≠ 0 := by
  decide

/-- C3 (corrected): the sellback payout formula depends on the variant.
The full variant `sellback_pack` pays
floor(Σ rarity_prices × buyback_bps / 10000) in the session's original
currency; the lightweight variant `sellback_pack_v2` pays
floor(paid_amount × buyback_bps / 10000) in the session's original
currency.  In particular, prices [100, 200, 300] with buyback_bps = 5000
pay exactly 300 in the full variant (see the witness). -/
theorem sellbackPayoutFormulas
    (a : ResolveV1Input) (b : ResolveV2Input)
    (hsum : a.session.rarity_prices.sum < U64_MOD)
    (ha : (sellbackPack a).toOption.isSome = true)
    (hb : (sellbackPackV2 b).toOption.isSome = true) :
    (sellbackPack a).map (fun r => (r.payout, r.payoutCurrency)) =
      Except.ok (specSellbackPayout a.session.rarity_prices
        a.vault.buyback_bps, a.session.currency) ∧
    (sellbackPackV2 b).map (fun r => (r.payout, r.payoutCurrency)) =
      Except.ok (b.session.paid_amount * b.vault.buyback_bps / 10000,
        b.session.currency) := by
  constructor
  · cases hres : sellbackPack a with
    | error e =>
      rw [hres] at ha
      simp [Except.toOption] at ha
    | ok r =>
      unfold sellbackPack at hres
      split at hres
      · exact absurd hres (by simp)
      split at hres
      · exact absurd hres (by simp)
      split at hres
      · exact absurd hres (by simp)
      · rename_i product hmul
        split at hres
        · exact absurd hres (by simp)
        split at hres
        · exact absurd hres (by simp)
        split at hres
        · exact absurd hres (by simp)
        · cases hres
          rw [checkedMul64] at hmul
          split at hmul
          · cases hmul
            simp [Except.map, specSellbackPayout, Nat.mod_eq_of_lt hsum]
          · cases hmul
  · cases hres : sellbackPackV2 b with
    | error e =>
      rw [hres] at hb
      simp [Except.toOption] at hb
    | ok r =>
      unfold sellbackPackV2 at hres
      split at hres
      · exact absurd hres (by simp)
      split at hres
      · exact absurd hres (by simp)
      split at hres
      · exact absurd hres (by simp)
      · rename_i product hmul
        split at hres
        · exact absurd hres (by simp)
        split at hres
        · exact absurd hres (by simp)
        split at hres
        · exact absurd hres (by simp)
        · cases hres
          rw [checkedMul64] at hmul
          split at hmul
          · cases hmul
            simp [Except.map]
          · cases hmul

/-- C3 witness: the full variant at prices [100, 200, 300] with
buyback_bps 5000 pays exactly 300 = floor(600 × 0.5); the lightweight
variant at paid_amount 1000 with buyback_bps 5000 pays 500. -/
theorem sellbackPayoutFormulasW :
    (sellbackV1InputC3W.session.rarity_prices.sum < U64_MOD ∧
      (sellbackPack sellbackV1InputC3W).toOption.isSome = true ∧
      (sellbackPackV2 sellbackV2InputC3W).toOption.isSome = true) ∧
    ((sellbackPack sellbackV1InputC3W).map
        (fun r => (r.payout, r.payoutCurrency)) =
      Except.ok (specSellbackPayout sellbackV1InputC3W.session.rarity_prices
        sellbackV1InputC3W.vault.buyback_bps,
        sellbackV1InputC3W.session.currency) ∧
     (sellbackPackV2 sellbackV2InputC3W).map
        (fun r => (r.payout, r.payoutCurrency)) =
      Except.ok (sellbackV2InputC3W.session.paid_amount *
        sellbackV2InputC3W.vault.buyback_bps / 10000,
        sellbackV2InputC3W.session.currency)) ∧
    specSellbackPayout sellbackV1InputC3W.session.rarity_prices
      sellbackV1InputC3W.vault.buyback_bps = 300 ∧
    sellbackV2InputC3W.session.paid_amount *
      sellbackV2InputC3W.vault.buyback_bps / 10000 = 500 :=
  ⟨⟨by decide, by decide, by decide⟩,
    sellbackPayoutFormulas sellbackV1InputC3W sellbackV2InputC3W (by decide)
      (by decide) (by decide),
    by decide, by decide⟩

/-- C4 (code_bug): evaluation of the full-variant `sellback_pack` at a
`PendingDecision`, unexpired session with eleven `Reserved` records.  The
call succeeds, pays floor(600 × 5000 / 10000) = 300 and marks the session
`Rejected`, but every stored card record is unchanged — still `Reserved`
with user 3 as owner — because the release loop (lib.rs:1000-1005) only
mutates the deserialized copies and, unlike `claim_pack` (lib.rs:792-794)
and `sellback_pack_v2` (`persist_card_record`, lib.rs:543), never
serializes them back.  The claim (and the v2 path) expects the records
persisted `Available` under the custody authority. -/
theorem sellbackPackLeavesRecordsReserved :
    (sellbackPack sellbackV1InputC4).map
        (fun r => (r.session.state, r.payout, r.cards)) =
      Except.ok (PackState.Rejected, 300, sellbackV1InputC4.cardAccounts) ∧
    ∀ p ∈ sellbackV1InputC4.cardAccounts,
      p.2.status = CardStatus.Reserved ∧ p.2.owner = 3 := by
  decide
/-- C5 counterexample: `finalize_claim` verifies only the caller-supplied
remaining accounts.  With an empty supplied list the verification loop is
vacuous, and the session — whose eleven slots are all still `Reserved`
(witnessed by the record at slot key 100, `reservedSlotRecordC5`) — is
marked `Accepted` even though no slot ever reached `UserOwned`. -/
theorem finalizeClaimAcceptsEmptySupplied :
    pendingV1SessionC5.card_record_keys.length = PACK_CARD_COUNT ∧
    pendingV1SessionC5.card_record_keys.head? = some 100 ∧
    reservedSlotRecordC5.status ≠ CardStatus.UserOwned ∧
    finalizeClaim 3 50 pendingV1SessionC5 [] =
      Except.ok { pendingV1SessionC5 with state := PackState.Accepted } := by
  decide

/-- C5 (corrected): on a `PendingDecision`, unexpired session,
`finalize_claim` marks the session `Accepted` exactly when every
caller-supplied record has status `UserOwned` with the caller as owner;
if any supplied record has not, the call fails and the session stays
`PendingDecision`.  The verification covers only the supplied records —
the handler never compares them against the session's slots, so an empty
supplied list passes vacuously (see the counterexample). -/
theorem finalizeClaimChecksSuppliedRecords
    (user : Pubkey) (now : Int) (session : PackSession)
    (supplied : List CardRecord)
    (hstate : session.state = PackState.PendingDecision)
    (htime : now ≤ session.expires_at) :
    ((∀ c ∈ supplied, c.status = CardStatus.UserOwned ∧ c.owner = user) →
      finalizeClaim user now session supplied =
        Except.ok { session with state := PackState.Accepted }) ∧
    ((∃ c ∈ supplied, ¬ (c.status = CardStatus.UserOwned ∧ c.owner = user)) →
      (∃ e, finalizeClaim user now session supplied = Except.error e) ∧
      finalizeClaimPersisted user now session supplied = session) := by
  constructor
  · intro hall
    unfold finalizeClaim
    rw [if_neg (by simp [hstate]), if_neg (by omega),
      (checkAllUserOwned_ok_iff user supplied).mpr hall]
  · rintro ⟨c, hc, hnc⟩
    have herr : ∃ e, checkAllUserOwned user supplied = Except.error e := by
      cases hloop : checkAllUserOwned user supplied with
      | error e => exact ⟨e, rfl⟩
      | ok u =>
        cases u
        exact absurd
          ((checkAllUserOwned_ok_iff user supplied).mp hloop c hc) hnc
    obtain ⟨e, he⟩ := herr
    have hfin : finalizeClaim user now session supplied = Except.error e := by
      unfold finalizeClaim
      rw [if_neg (by simp [hstate]), if_neg (by omega), he]
    exact ⟨⟨e, hfin⟩, by simp [finalizeClaimPersisted, hfin]⟩

/-- C5 witness: a `PendingDecision`, unexpired session; a supplied batch of
one `UserOwned` record finalizes to `Accepted`, and a supplied batch
containing a `Reserved` record fails leaving the session unchanged. -/
theorem finalizeClaimChecksSuppliedRecordsW :
    (pendingV1SessionC5.state = PackState.PendingDecision ∧
      (50 : Int) ≤ pendingV1SessionC5.expires_at) ∧
    (((∀ c ∈ [userOwnedRecordW],
        c.status = CardStatus.UserOwned ∧ c.owner = 3) →
      finalizeClaim 3 50 pendingV1SessionC5 [userOwnedRecordW] =
        Except.ok { pendingV1SessionC5 with state := PackState.Accepted }) ∧
    ((∃ c ∈ [userOwnedRecordW],
        ¬ (c.status = CardStatus.UserOwned ∧ c.owner = 3)) →
      (∃ e, finalizeClaim 3 50 pendingV1SessionC5 [userOwnedRecordW] =
        Except.error e) ∧
      finalizeClaimPersisted 3 50 pendingV1SessionC5 [userOwnedRecordW] =
        pendingV1SessionC5)) ∧
    (∃ e, finalizeClaim 3 50 pendingV1SessionC5 [reservedSlotRecordC5] =
      Except.error e) ∧
    finalizeClaimPersisted 3 50 pendingV1SessionC5 [reservedSlotRecordC5] =
      pendingV1SessionC5 :=
  ⟨⟨by decide, by decide⟩,
    finalizeClaimChecksSuppliedRecords 3 50 pendingV1SessionC5
      [userOwnedRecordW] (by decide) (by decide),
    (finalizeClaimChecksSuppliedRecords 3 50 pendingV1SessionC5
      [reservedSlotRecordC5] (by decide) (by decide)).2
      ⟨reservedSlotRecordC5, by decide⟩⟩
/-- C6 counterexample: a successful `open_pack` turns an `Available` record
held by custody authority 2 into `Reserved` with the reserving user 5 as
owner (lib.rs:311-312) — not the custody authority — refuting "owner
equals the custody-authority identifier whenever status is Reserved". -/
theorem openPackReservesToUserNotAuthority :
    rareCardEx.owner = vaultEx.vault_authority ∧
    rareCardEx.status = CardStatus.Available ∧
    (openPackV2 openV2InputC6).map
        (fun r => r.cards.map (fun p => (p.2.status, p.2.owner))) =
      Except.ok [(CardStatus.Reserved, 5)] ∧
    openV2InputC6.user = 5 ∧ (5 : Nat) ≠ vaultEx.vault_authority := by
  decide

/-- C6 (corrected): ownership per status, after each operation.  Records a
lightweight open writes back are `Reserved` with the reserving user as
owner (not the custody authority); records the lightweight sellback writes
back are `Available` with the custody authority as owner; the record
`list_card` persists is `Reserved` with the custody authority as owner.
The "owner = custody authority" rule therefore holds for `Available`
records and for marketplace reservations, while pack-open reservations
carry the user as owner; `UserOwned` records carry the actual user. -/
theorem ownershipByStatusAfterOps
    (a : OpenPackV2Input) (b : ResolveV2Input) (c : ListCardInput)
    (ha : (openPackV2 a).toOption.isSome = true)
    (hb : (sellbackPackV2 b).toOption.isSome = true)
    (hc : (listCard c).toOption.isSome = true) :
    (openPackV2 a).map
        (fun r => decide (∀ p ∈ r.cards,
          p.2.status = CardStatus.Reserved ∧ p.2.owner = a.user)) =
      Except.ok true ∧
    (sellbackPackV2 b).map
        (fun r => decide (∀ p ∈ r.cards,
          p.2.status = CardStatus.Available ∧
            p.2.owner = b.vaultAuthorityKey)) =
      Except.ok true ∧
    (listCard c).map
        (fun rl => decide (rl.1.status = CardStatus.Reserved ∧
          rl.1.owner = c.vaultAuthorityKey)) =
      Except.ok true := by
  refine ⟨?_, ?_, ?_⟩
  · cases hres : openPackV2 a with
    | error e =>
      rw [hres] at ha
      simp [Except.toOption] at ha
    | ok r =>
      unfold openPackV2 at hres
      split at hres
      · exact absurd hres (by simp)
      split at hres
      · exact absurd hres (by simp)
      split at hres
      · exact absurd hres (by simp)
      split at hres
      · exact absurd hres (by simp)
      · split at hres
        · exact absurd hres (by simp)
        · rename_i reserved hloop
          split at hres
          · exact absurd hres (by simp)
          · cases hres
            simp only [Except.map, Except.ok.injEq, decide_eq_true_eq]
            exact reserveRareCards_ok_reserved _ _ _ _ _ hloop
  · cases hres : sellbackPackV2 b with
    | error e =>
      rw [hres] at hb
      simp [Except.toOption] at hb
    | ok r =>
      unfold sellbackPackV2 at hres
      split at hres
      · exact absurd hres (by simp)
      split at hres
      · exact absurd hres (by simp)
      split at hres
      · exact absurd hres (by simp)
      · split at hres
        · exact absurd hres (by simp)
        split at hres
        · exact absurd hres (by simp)
        · split at hres
          · exact absurd hres (by simp)
          · rename_i released hloop
            cases hres
            simp only [Except.map, Except.ok.injEq, decide_eq_true_eq]
            exact releaseReservedCards_ok_released _ _ _ _ _ hloop
  · cases hres : listCard c with
    | error e =>
      rw [hres] at hc
      simp [Except.toOption] at hc
    | ok rl =>
      unfold listCard at hres
      split at hres
      · exact absurd hres (by simp)
      split at hres
      · exact absurd hres (by simp)
      split at hres
      · exact absurd hres (by simp)
      split at hres
      · exact absurd hres (by simp)
      split at hres
      · exact absurd hres (by simp)
      split at hres
      · exact absurd hres (by simp)
      · cases hres
        simp [Except.map]

/-- C6 witness: concrete open, sellback and listing instances. -/
theorem ownershipByStatusAfterOpsW :
    ((openPackV2 openV2InputC6).toOption.isSome = true ∧
      (sellbackPackV2 sellbackV2InputC6W).toOption.isSome = true ∧
      (listCard listCardInputC6W).toOption.isSome = true) ∧
    ((openPackV2 openV2InputC6).map
        (fun r => decide (∀ p ∈ r.cards,
          p.2.status = CardStatus.Reserved ∧
            p.2.owner = openV2InputC6.user)) = Except.ok true ∧
     (sellbackPackV2 sellbackV2InputC6W).map
        (fun r => decide (∀ p ∈ r.cards,
          p.2.status = CardStatus.Available ∧
            p.2.owner = sellbackV2InputC6W.vaultAuthorityKey)) =
      Except.ok true ∧
     (listCard listCardInputC6W).map
        (fun rl => decide (rl.1.status = CardStatus.Reserved ∧
          rl.1.owner = listCardInputC6W.vaultAuthorityKey)) =
      Except.ok true) :=
  ⟨⟨by decide, by decide, by decide⟩,
    ownershipByStatusAfterOps openV2InputC6 sellbackV2InputC6W
      listCardInputC6W (by decide) (by decide) (by decide)⟩
/-- Helper for the marketplace fill: on an `Active` listing, with the fee
product inside u64 and the fee rate at most 100%, `fill_listing` succeeds
with fee = floor(price × fee_bps / 10000) to the treasury and price − fee
to the seller, the record rewritten `UserOwned` under the buyer, and the
listing `Filled`. -/
theorem fillListing_ok (inp : FillListingInput)
    (hActive : inp.listing.status = ListingStatus.Active)
    (hmul : inp.listing.price_lamports * inp.vault.marketplace_fee_bps <
      U64_MOD)
    (hbps : inp.vault.marketplace_fee_bps ≤ 10000) :
    fillListing inp = Except.ok
      { feeToTreasury :=
          inp.listing.price_lamports * inp.vault.marketplace_fee_bps / 10000
        amountToSeller := inp.listing.price_lamports -
          inp.listing.price_lamports * inp.vault.marketplace_fee_bps / 10000
        record := { inp.record with status := CardStatus.UserOwned
                                    owner := inp.buyer }
        listing := { inp.listing with status := ListingStatus.Filled } } := by
  have hfee : inp.listing.price_lamports * inp.vault.marketplace_fee_bps /
      10000 ≤ inp.listing.price_lamports := by
    calc inp.listing.price_lamports * inp.vault.marketplace_fee_bps / 10000
        ≤ inp.listing.price_lamports * 10000 / 10000 :=
          Nat.div_le_div_right (Nat.mul_le_mul_left _ hbps)
      _ = inp.listing.price_lamports := Nat.mul_div_cancel _ (by norm_num)
  unfold fillListing
  rw [if_neg (by simp [hActive])]
  rw [checkedMul64, if_pos hmul]
  dsimp only
  rw [checkedSub64, if_pos hfee]
  dsimp only
  rw [if_neg (by simp)]

/-- C7 (confirmed): `fill_listing` on an `Active` listing charges the buyer
exactly the listing price within a single call, split as
fee = floor(price × marketplace_fee_bps / 10000) to the treasury and
price − fee to the seller; the card record ends `UserOwned` with the buyer
as owner and the listing ends `Filled`.  The fee and seller amounts sum to
the price. -/
theorem fillListingFeeSplit (inp : FillListingInput)
    (hActive : inp.listing.status = ListingStatus.Active)
    (hmul : inp.listing.price_lamports * inp.vault.marketplace_fee_bps <
      U64_MOD)
    (hbps : inp.vault.marketplace_fee_bps ≤ 10000) :
    fillListing inp = Except.ok
      { feeToTreasury :=
          inp.listing.price_lamports * inp.vault.marketplace_fee_bps / 10000
        amountToSeller := inp.listing.price_lamports -
          inp.listing.price_lamports * inp.vault.marketplace_fee_bps / 10000
        record := { inp.record with status := CardStatus.UserOwned
                                    owner := inp.buyer }
        listing := { inp.listing with status := ListingStatus.Filled } } ∧
    inp.listing.price_lamports * inp.vault.marketplace_fee_bps / 10000 +
        (inp.listing.price_lamports -
          inp.listing.price_lamports * inp.vault.marketplace_fee_bps /
            10000) =
      inp.listing.price_lamports := by
  have hfee : inp.listing.price_lamports * inp.vault.marketplace_fee_bps /
      10000 ≤ inp.listing.price_lamports := by
    calc inp.listing.price_lamports * inp.vault.marketplace_fee_bps / 10000
        ≤ inp.listing.price_lamports * 10000 / 10000 :=
          Nat.div_le_div_right (Nat.mul_le_mul_left _ hbps)
      _ = inp.listing.price_lamports := Nat.mul_div_cancel _ (by norm_num)
  exact ⟨fillListing_ok inp hActive hmul hbps, Nat.add_sub_cancel' hfee⟩

/-- C7 witness: price 1000 and fee rate 250 bps give fee 25 to the
treasury and 975 to the seller; record `UserOwned` by buyer 8, listing
`Filled`. -/
theorem fillListingFeeSplitW :
    (fillInputC7W.listing.status = ListingStatus.Active ∧
      fillInputC7W.listing.price_lamports *
        fillInputC7W.vault.marketplace_fee_bps < U64_MOD ∧
      fillInputC7W.vault.marketplace_fee_bps ≤ 10000) ∧
    (fillListing fillInputC7W = Except.ok
      { feeToTreasury := fillInputC7W.listing.price_lamports *
          fillInputC7W.vault.marketplace_fee_bps / 10000
        amountToSeller := fillInputC7W.listing.price_lamports -
          fillInputC7W.listing.price_lamports *
            fillInputC7W.vault.marketplace_fee_bps / 10000
        record := { fillInputC7W.record with status := CardStatus.UserOwned
                                             owner := fillInputC7W.buyer }
        listing :=
          { fillInputC7W.listing with status := ListingStatus.Filled } } ∧
      fillInputC7W.listing.price_lamports *
          fillInputC7W.vault.marketplace_fee_bps / 10000 +
        (fillInputC7W.listing.price_lamports -
          fillInputC7W.listing.price_lamports *
            fillInputC7W.vault.marketplace_fee_bps / 10000) =
        fillInputC7W.listing.price_lamports) ∧
    fillInputC7W.listing.price_lamports *
      fillInputC7W.vault.marketplace_fee_bps / 10000 = 25 ∧
    fillInputC7W.listing.price_lamports -
      fillInputC7W.listing.price_lamports *
        fillInputC7W.vault.marketplace_fee_bps / 10000 = 975 :=
  ⟨⟨by decide, by decide, by decide⟩,
    fillListingFeeSplit fillInputC7W (by decide) (by decide) (by decide),
    by decide, by decide⟩

/-- C10 (confirmed): `fill_listing` accepts any card record — `card_record`
carries no seeds constraint and no relation to the listing's `core_asset`
or the marketplace vault, and the handler's only asset check compares the
record's `core_asset` to the value just read from the same record, which
cannot fail — and unconditionally rewrites the supplied record to
`UserOwned` with the buyer as owner.  `inp.record` below is arbitrary: any
vault reference, asset, rarity, status and owner. -/
theorem fillListingAcceptsUnrelatedRecord (inp : FillListingInput)
    (hActive : inp.listing.status = ListingStatus.Active)
    (hmul : inp.listing.price_lamports * inp.vault.marketplace_fee_bps <
      U64_MOD)
    (hbps : inp.vault.marketplace_fee_bps ≤ 10000) :
    (fillListing inp).map (fun r => r.record) =
      Except.ok { inp.record with status := CardStatus.UserOwned
                                  owner := inp.buyer } ∧
    ∀ x, fillListing x ≠ Except.error MochiError.AssetMismatch := by
  constructor
  · rw [fillListing_ok inp hActive hmul hbps]
    rfl
  · intro x
    unfold fillListing
    split
    · simp
    split
    · simp
    split
    · simp
    split
    · exact absurd rfl (by assumption)
    · simp
/-- C10 witness: buyer 8 fills `listingEx` (vault 1, asset 50) while
supplying a record of a different vault (99), a different asset (55), in
terminal status `Burned`; the call still succeeds and the record ends
`UserOwned` with buyer 8 as owner. -/
theorem fillListingAcceptsUnrelatedRecordW :
    (fillInputC10W.listing.status = ListingStatus.Active ∧
      fillInputC10W.listing.price_lamports *
        fillInputC10W.vault.marketplace_fee_bps < U64_MOD ∧
      fillInputC10W.vault.marketplace_fee_bps ≤ 10000) ∧
    ((fillListing fillInputC10W).map (fun r => r.record) =
      Except.ok { fillInputC10W.record with status := CardStatus.UserOwned
                                            owner := fillInputC10W.buyer } ∧
      ∀ x, fillListing x ≠ Except.error MochiError.AssetMismatch) ∧
    fillInputC10W.record.vault_state ≠ fillInputC10W.listing.vault_state ∧
    fillInputC10W.record.core_asset ≠ fillInputC10W.listing.core_asset ∧
    fillInputC10W.record.status = CardStatus.Burned :=
  ⟨⟨by decide, by decide, by decide⟩,
    fillListingAcceptsUnrelatedRecord fillInputC10W (by decide) (by decide)
      (by decide),
    by decide, by decide, by decide⟩

/-- C8 counterexample: caller 4 — neither user 3 (whose sessions are
`PendingDecision` and expired: `expires_at` = 100 < now = 200) nor the
admin 9 — cannot expire user 3's session in either variant.  Both the
`ResolvePack` and `ResolvePackV2` contexts require `user` to sign and
derive `pack_session` from the signer's key, so the call resolves caller
4's own fresh session and fails with `InvalidSessionState`; user 3's
session is not even an input of the call. -/
theorem expireRequiresSessionOwner :
    (sessionsC8 3).state = PackState.PendingDecision ∧
    (sessionsC8 3).expires_at = 100 ∧
    (sessionsV1C8 3).state = PackState.PendingDecision ∧
    (sessionsV1C8 3).expires_at = 100 ∧ ((100 : Int) < 200) ∧
    (4 : Nat) ≠ 3 ∧ (4 : Nat) ≠ vaultEx.admin ∧
    expireSessionV2ByCaller sessionsC8 1 vaultEx 2 4 200 [] =
      Except.error MochiError.InvalidSessionState ∧
    expireSessionByCaller sessionsV1C8 1 vaultEx 2 4 200 reservedCardsC4
        PACK_CARD_COUNT =
      Except.error MochiError.InvalidSessionState := by
  decide

/-- C8 (corrected): the non-admin expire is reachable only by the session's
own user, because the session account is the PDA derived from the signing
caller's key.  When the session's user calls it on a `PendingDecision`
session with now strictly greater than `expires_at`, the call succeeds
with zero payout and marks the session `Expired`.  The lightweight variant
`expire_session_v2` also writes every reserved record back `Available`
under the custody authority; the full variant `expire_session` leaves the
stored card records exactly as supplied — its release loop
(lib.rs:1024-1028) mutates only deserialized copies and never serializes
them back (the same write-back defect as the full-variant sellback). -/
theorem expireByOwnerSetsExpiredNoPayout
    (sessions : Pubkey → PackSessionV2) (sessionsV1 : Pubkey → PackSession)
    (vaultKey : Pubkey) (vault : VaultState) (auth u : Pubkey) (now : Int)
    (cards cardsV1 : List (Pubkey × CardRecord)) (assetCount : Nat)
    (h1 : (sessions u).state = PackState.PendingDecision)
    (h2 : (sessions u).expires_at < now)
    (h3 : cards.map Prod.fst = (sessions u).rare_card_keys)
    (h4 : ∀ p ∈ cards, p.2.status = CardStatus.Reserved)
    (h5 : (sessionsV1 u).state = PackState.PendingDecision)
    (h6 : (sessionsV1 u).expires_at < now)
    (h7 : PACK_CARD_COUNT ≤ cardsV1.length) :
    expireSessionV2ByCaller sessions vaultKey vault auth u now cards =
      Except.ok
        { session := { sessions u with state := PackState.Expired }
          cards := cards.map (fun p =>
            (p.1, { p.2 with status := CardStatus.Available, owner := auth }))
          payout := 0 } ∧
    expireSessionByCaller sessionsV1 vaultKey vault auth u now cardsV1
        assetCount =
      Except.ok
        { session := { sessionsV1 u with state := PackState.Expired }
          cards := cardsV1
          payout := 0 } := by
  constructor
  · have hlen : (sessions u).rare_card_keys.length = cards.length := by
      rw [← h3, List.length_map]
    unfold expireSessionV2ByCaller expireSessionV2
    dsimp only
    rw [if_neg (by simp [h1]), if_neg (not_not_intro h2),
      if_neg (by rw [hlen]; omega), hlen, List.take_length,
      releaseExpiredCards_complete auth cards (sessions u).rare_card_keys h3
        h4]
  · unfold expireSessionByCaller expireSession
    dsimp only
    rw [if_neg (by simp [h5]), if_neg (not_not_intro h6),
      if_neg (by omega)]

/-- C8 witness: user 3 expires their own expired sessions.  The
lightweight call releases the reserved record at key 40 with no payout;
the full-pack call marks the session `Expired` with no payout while the
eleven supplied `Reserved` records stay exactly as stored. -/
theorem expireByOwnerSetsExpiredNoPayoutW :
    ((sessionsC8 3).state = PackState.PendingDecision ∧
      (sessionsC8 3).expires_at < (200 : Int) ∧
      [(40, reservedRareCardEx)].map Prod.fst = (sessionsC8 3).rare_card_keys ∧
      (∀ p ∈ [(40, reservedRareCardEx)],
        p.2.status = CardStatus.Reserved) ∧
      (sessionsV1C8 3).state = PackState.PendingDecision ∧
      (sessionsV1C8 3).expires_at < (200 : Int) ∧
      PACK_CARD_COUNT ≤ reservedCardsC4.length) ∧
    (expireSessionV2ByCaller sessionsC8 1 vaultEx 2 3 200
        [(40, reservedRareCardEx)] =
      Except.ok
        { session := { sessionsC8 3 with state := PackState.Expired }
          cards := [(40, reservedRareCardEx)].map (fun p =>
            (p.1, { p.2 with status := CardStatus.Available, owner := 2 }))
          payout := 0 } ∧
     expireSessionByCaller sessionsV1C8 1 vaultEx 2 3 200 reservedCardsC4
        PACK_CARD_COUNT =
      Except.ok
        { session := { sessionsV1C8 3 with state := PackState.Expired }
          cards := reservedCardsC4
          payout := 0 }) :=
  ⟨⟨by decide, by decide, by decide, by decide, by decide, by decide,
      by decide⟩,
    expireByOwnerSetsExpiredNoPayout sessionsC8 sessionsV1C8 1 vaultEx 2 3
      200 [(40, reservedRareCardEx)] reservedCardsC4 PACK_CARD_COUNT
      (by decide) (by decide) (by decide) (by decide) (by decide) (by decide)
      (by decide)⟩

/-- C9 (confirmed): `migrate_vault_state` performs no check of the caller
against the recorded admin: for every signer the handler runs to
completion (its only fallible steps — rent top-up and reallocation — are
caller-funded resource obligations of the external ledger, independent of
identity), and the rewritten `VaultState` stores the caller's key as the
admin.  The result is identical for any two previous vault contents, so
the previous admin in particular is never consulted. -/
theorem migrateVaultStateNoAdminCheck
    (deriveAuth : Pubkey → Pubkey × Nat) (caller vaultKey : Pubkey)
    (oldA oldB : VaultState) (p : MigrateParams) :
    (migrateVaultState deriveAuth caller vaultKey oldA p).admin = caller ∧
    migrateVaultState deriveAuth caller vaultKey oldA p =
      migrateVaultState deriveAuth caller vaultKey oldB p ∧
    migrateVaultState deriveAuth caller vaultKey oldA p =
      { admin := caller
        vault_authority := (deriveAuth vaultKey).1
        pack_price_sol := p.pack_price_sol
        pack_price_usdc := p.pack_price_usdc
        buyback_bps := p.buyback_bps
        claim_window_seconds := p.claim_window_seconds
        marketplace_fee_bps := p.marketplace_fee_bps
        core_collection := none
        usdc_mint := p.usdc_mint
        mochi_mint := p.mochi_mint
        reward_per_pack := p.reward_per_pack
        vault_authority_bump := (deriveAuth vaultKey).2 } :=
  ⟨rfl, rfl, rfl⟩
